import Mathlib

/-!
Shallow embedding of the COD-RAG repository (JavaScript serverless
functions) and proofs about its behaviour.

Modelled source files:
- `api/rag.js` — the RAG endpoint: MongoDB connection cache, embedding
  call, vector search, prompt assembly, LLM call, fallback handling.
- `api/kag.js` and `api/kag-search.js` — KAG text-search endpoints.
- `api/streaming.js` — SSE forwarding of an upstream LLM stream.
- `api/mongodb-status.js` — status endpoint (shares the connection-cache
  shape with `rag.js`).
- `data-import/import-to-mongodb.js` — offline JSONL batch import.
- `utilities/kag-processor.js` — prompt augmentation helpers.

External collaborators (MongoDB, the Fireworks HTTP API, the Node stream)
are modelled as oracles: each external call's outcome is a field of an
oracle record, consumed at the point where the code awaits it.  Handlers
return both their HTTP-level result and a trace of the external actions
they performed, in order.
-/

deriving instance DecidableEq for Except

/-- A retrieved document, as projected by the RAG vector search
(`instruction`, `context`, `response`, `score`).  Scores are modelled as
integers. -/
structure Doc where
  instruction : String
  context : String
  response : String
  score : Int
deriving DecidableEq, Repr

/-- One entry of the `sources` array of the RAG success response
(`api/rag.js`, Step 6). -/
structure SourceEntry where
  instruction : String
  response : String
  context : String
  score : Int
deriving DecidableEq, Repr

/-- A chat message sent to the LLM API. -/
structure Message where
  role : String
  content : String
deriving DecidableEq, Repr

/-- The vector-KNN aggregate issued by `api/rag.js` Step 3:
`$search` with `knnBeta` on a path with a `k`, followed by a
`$project` of the listed fields. -/
structure VectorQuery where
  index : String
  path : String
  k : Nat
  vector : List Int
  projectFields : List String
deriving DecidableEq, Repr

/-- The text-score `find` issued by `api/kag.js` / `api/kag-search.js`:
`$text: \x7b $search: query \x7d`, sorted by `textScore`, limited. -/
structure TextQuery where
  search : String
  sortByTextScore : Bool
  limit : Nat
deriving DecidableEq, Repr

/-- HTTP-level outcome of the RAG endpoint handler. -/
inductive RagResult where
  /-- 204 response to an OPTIONS preflight. -/
  | options204
  /-- `errorResponse(res, status, message, details)`. -/
  | err (status : Nat) (error : String) (details : Option String)
  /-- a 200 JSON response: `answer`, `sources`, `fallback`, and the
  optional `error` field set on the embedding-failure path. -/
  | ok200 (answer : String) (sources : List SourceEntry) (fallback : Bool)
      (errorField : Option String)
deriving DecidableEq, Repr

/-- External actions and pipeline milestones of the RAG handler, in the
order they happen. -/
inductive Ev where
  /-- `connectToDatabase` was invoked (Step 1). -/
  | connect
  /-- the embeddings HTTP call was issued (Step 2). -/
  | embedCall (model input : String)
  /-- the embedding was successfully obtained. -/
  | embedOk (vector : List Int)
  /-- `generateFallbackResponse(query)` was invoked. -/
  | fallbackGen (query : String)
  /-- the vector-search aggregate was issued (Step 3). -/
  | searchCall (q : VectorQuery)
  /-- the prompt messages were assembled (Steps 4–5). -/
  | assemble (msgs : List Message)
  /-- the chat-completions HTTP call was issued (Step 5). -/
  | llmCall (msgs : List Message)
  /-- the HTTP response was written. -/
  | respond (r : RagResult)
deriving DecidableEq, Repr

/-- Parsed request body of the RAG endpoint.  `none` fields are absent
from the JSON body; `query = some ""` models an empty-string query
(falsy in JS, hence rejected like a missing one). -/
structure RagBody where
  query : Option String
  collectionName : Option String
  modelName : Option String
deriving DecidableEq, Repr

/-- The RAG request as the handler sees it: the HTTP method and the body
(`Except` error = `JSON.parse` of a string body threw). -/
structure RagRequest where
  method : String
  body : Except String RagBody
deriving DecidableEq, Repr

/-- Process environment of `api/rag.js`. -/
structure RagEnv where
  fireworksApiKey : Option String
  mongoDbUri : Option String
  mongoCollection : Option String
deriving DecidableEq, Repr

/-- Outcomes of the four external calls the RAG handler can await, one
per request. -/
structure RagOracle where
  /-- Step 1: MongoDB connect plus `stats()` (`.ok` = connected). -/
  dbConnect : Except String Unit
  /-- Step 2: the embeddings API (`.ok` = the embedding vector). -/
  embedding : Except String (List Int)
  /-- Step 3: the vector-search aggregate (`.ok` = documents in the
  database's order). -/
  vectorSearch : Except String (List Doc)
  /-- Step 5: the chat-completions API (`.ok` = the answer text). -/
  llm : Except String String
deriving DecidableEq, Repr

/-- `generateFallbackResponse(query).answer` from `api/rag.js`. -/
def fallbackAnswer (query : String) : String :=
  "I\x27m unable to search the knowledge base at the moment due to a database connection issue. Here\x27s a general response to your query: \"" ++ query ++ "\".\n\nPlease try again later or contact support if this issue persists."

/-- The system-message content assembled in Step 5 of `api/rag.js`. -/
def systemContent (usedFallback : Bool) (context : String) : String :=
  "You are a helpful assistant. " ++
    (if usedFallback then
      "The knowledge base search is currently unavailable, so please answer based on your general knowledge."
     else
      "Use the following context to answer the user\x27s question, but don\x27t mention that you\x27re using a context. If the context doesn\x27t contain relevant information, just answer based on your knowledge.") ++
    "\n\n" ++ (if usedFallback then "" else "Context:\n" ++ context)

/-- Step 4 of `api/rag.js`: context built from the retrieved documents. -/
def buildContext (docs : List Doc) : String :=
  String.intercalate "\n\n"
    (docs.map fun doc =>
      "Question: " ++ doc.instruction ++ "\nContext: " ++ doc.context ++
        "\nAnswer: " ++ doc.response)

/-- The message list sent to the LLM in Step 5 of `api/rag.js`. -/
def buildMessages (usedFallback : Bool) (docs : List Doc) (query : String) :
    List Message :=
  [{ role := "system", content := systemContent usedFallback (buildContext docs) },
   { role := "user", content := query }]

/-- The vector-search aggregate of Step 3 of `api/rag.js`: index
`vector_index`, `knnBeta` on path `embedding` with `k = 5`, projecting
instruction, context, response and the search score. -/
def ragVectorQuery (emb : List Int) : VectorQuery :=
  { index := "vector_index", path := "embedding", k := 5, vector := emb,
    projectFields := ["instruction", "context", "response", "score"] }

/-- Step 6 of `api/rag.js`: one source entry, with the response truncated
by `substring(0, 200)` plus `"..."` when longer than 200. -/
def mkSource (doc : Doc) : SourceEntry :=
  { instruction := doc.instruction,
    response := String.mk (doc.response.data.take 200) ++
      (if doc.response.data.length > 200 then "..." else ""),
    context := doc.context,
    score := doc.score }

/-- `true` iff the JS value is falsy as a query: absent or the empty
string (`if (!query)`). -/
def queryFalsy : Option String → Bool
  | none => true
  | some q => q = ""

/-- The RAG endpoint handler (`module.exports` of `api/rag.js`) as a
function from the request, environment and oracle to the HTTP result and
the trace of actions. -/
def ragHandler (req : RagRequest) (env : RagEnv) (o : RagOracle) :
    RagResult × List Ev :=
  if req.method = "OPTIONS" then (.options204, [.respond .options204])
  else if req.method ≠ "POST" then
    (.err 405 "Method Not Allowed" none, [.respond (.err 405 "Method Not Allowed" none)])
  else
    match env.fireworksApiKey, env.mongoDbUri with
    | none, _ =>
      (.err 500 "Configuration error: Missing API keys or MongoDB URI" none,
       [.respond (.err 500 "Configuration error: Missing API keys or MongoDB URI" none)])
    | some _, none =>
      (.err 500 "Configuration error: Missing API keys or MongoDB URI" none,
       [.respond (.err 500 "Configuration error: Missing API keys or MongoDB URI" none)])
    | some _, some _ =>
      match req.body with
      | .error parseMsg =>
        (.err 400 "Invalid JSON in request body" (some parseMsg),
         [.respond (.err 400 "Invalid JSON in request body" (some parseMsg))])
      | .ok body =>
        if queryFalsy body.query then
          (.err 400 "Missing query parameter" none,
           [.respond (.err 400 "Missing query parameter" none)])
        else
          let query := body.query.getD ""
          let model := body.modelName.getD "nomic-ai/nomic-embed-text-v1.5"
          -- Step 1: connect (failure only sets the fallback flag)
          let usedFallback0 := match o.dbConnect with
            | .ok _ => false
            | .error _ => true
          let t1 : List Ev := [.connect]
          -- Step 2: embedding
          match o.embedding with
          | .error msg =>
            let r : RagResult :=
              .ok200 (fallbackAnswer query) [] true
                (some ("Embedding failed: " ++ msg))
            (r, t1 ++ [.embedCall model query, .fallbackGen query, .respond r])
          | .ok emb =>
            let t2 := t1 ++ [.embedCall model query, .embedOk emb]
            -- Step 3: vector search (only if connected)
            let s3 : List Doc × Bool × List Ev :=
              if usedFallback0 then ([], true, [])
              else match o.vectorSearch with
                | .ok docs => (docs, false, [.searchCall (ragVectorQuery emb)])
                | .error _ => ([], true, [.searchCall (ragVectorQuery emb)])
            let queryResult := s3.1
            let usedFallback := s3.2.1
            let t3 := t2 ++ s3.2.2
            -- Steps 4–5: prompt assembly and the LLM call
            let msgs := buildMessages usedFallback queryResult query
            let t4 := t3 ++ [.assemble msgs, .llmCall msgs]
            match o.llm with
            | .error msg =>
              let r : RagResult := .err 500 ("LLM API error: " ++ msg) none
              (r, t4 ++ [.respond r])
            | .ok answer =>
              -- Step 6: success response
              let r : RagResult :=
                .ok200 answer (queryResult.map mkSource) usedFallback none
              (r, t4 ++ [.respond r])

/-! ## The module-level MongoDB connection cache (`connectToDatabase`) -/

/-- A database handle, identified abstractly. -/
abbrev Db := Nat

/-- What one call to `connectToDatabase` did: the value it returned (or
the error it threw) and whether it constructed a new `MongoClient`. -/
structure ConnectStep where
  result : Except String Db
  constructedClient : Bool
deriving DecidableEq, Repr

/-- `connectToDatabase(uri)` of `api/rag.js`: returns the cached handle
when `cachedDb` is set; otherwise constructs a client, attempts to
connect (`outcome`), stores the handle on success, and wraps the error
message on failure.  Returns the new cache value and the step record. -/
def connectToDatabase (cached : Option Db) (outcome : Except String Db) :
    Option Db × ConnectStep :=
  match cached with
  | some db => (some db, ⟨.ok db, false⟩)
  | none =>
    match outcome with
    | .ok db => (some db, ⟨.ok db, true⟩)
    | .error msg =>
      (none, ⟨.error ("Failed to connect to MongoDB: " ++ msg), true⟩)

/-- A sequence of `connectToDatabase` calls threading the module-level
`cachedDb` variable, one connect outcome per call. -/
def runConnects (cached : Option Db) :
    List (Except String Db) → Option Db × List ConnectStep
  | [] => (cached, [])
  | o :: os =>
    let s := connectToDatabase cached o
    let rest := runConnects s.1 os
    (rest.1, s.2 :: rest.2)

/-! ## The streaming endpoint (`api/streaming.js`) -/

/-- Events emitted by the upstream LLM response body stream. -/
inductive SEvent where
  | chunk (c : String)
  | ended
  | errored (msg : String)
deriving DecidableEq, Repr

/-- `JSON.stringify(\x7b error: true, message \x7d)` as written by the
streaming handler's error paths. -/
def jsonErrorEvent (msg : String) : String :=
  "\x7b\"error\":true,\"message\":\"" ++ msg ++ "\"\x7d"

/-- The `data` handler of `api/streaming.js`:
`res.write(\x60data: $\x7bchunk\x7d\n\n\x60)`. -/
def onChunkWrite (c : String) : String := "data: " ++ c ++ "\n\n"

/-- Processing of the upstream stream by the three event handlers: each
`data` chunk is written re-enveloped, `end` writes the DONE marker and
ends the response, `error` writes a JSON error event and ends the
response.  Returns the list of writes and whether `res.end()` ran. -/
def runStream : List SEvent → List String × Bool
  | [] => ([], false)
  | .chunk c :: rest =>
    let r := runStream rest
    (onChunkWrite c :: r.1, r.2)
  | .ended :: _ => (["data: [DONE]\n\n"], true)
  | .errored msg :: _ => (["data: " ++ jsonErrorEvent msg ++ "\n\n"], true)

/-- The streaming request: method and the body-parse outcome. -/
structure StreamRequest where
  method : String
  body : Except String String
deriving DecidableEq, Repr

/-- Outcomes of the streaming handler's external calls: the upstream
fetch (`.error` = `!response.ok` with the error text) and the stream
events. -/
structure StreamOracle where
  upstream : Except String Unit
  events : List SEvent
deriving DecidableEq, Repr

/-- HTTP-level outcome of the streaming handler.  `status` is a JSON
response with an explicit status code; `streamed` is the SSE path, whose
implicit status is 200. -/
inductive StreamResult where
  | status (code : Nat) (errorBody : Option String)
  | streamed (writes : List String) (ended : Bool)
deriving DecidableEq, Repr

/-- The streaming endpoint handler (`module.exports` of
`api/streaming.js`). -/
def streamingHandler (req : StreamRequest) (apiKey : Option String)
    (o : StreamOracle) : StreamResult :=
  if req.method = "OPTIONS" then .status 204 none
  else if req.method ≠ "POST" then .status 405 (some "Method not allowed")
  else
    match req.body with
    | .error msg =>
      -- the outer catch: written in-stream, no status code set
      .streamed ["data: " ++ jsonErrorEvent msg ++ "\n\n"] true
    | .ok _ =>
      match apiKey with
      | none => .status 500 (some "API key not configured on server")
      | some _ =>
        match o.upstream with
        | .error errText =>
          .streamed ["data: " ++ jsonErrorEvent errText ++ "\n\n"] true
        | .ok _ =>
          let r := runStream o.events
          .streamed r.1 r.2

/-! ## The KAG prompt helpers (`utilities/kag-processor.js`) -/

/-- One example document of the KAG collection. -/
structure KagExample where
  input : String
  output : String
  score : Int
deriving DecidableEq, Repr

/-- The characters of a string literal; prompts are modelled as
character lists so that JS `substring`/`indexOf` become `take`/`drop`
and an index search. -/
def strChars (s : String) : List Char := s.data

/-- The `forEach` body of `formatKagExamples`, carrying the index. -/
def formatKagBody : Nat → List KagExample → List Char
  | _, [] => []
  | i, e :: rest =>
    strChars "EXAMPLE " ++ strChars (Nat.repr (i + 1)) ++ strChars ":\nUser: " ++
      strChars e.input ++ strChars "\nAssistant: " ++ strChars e.output ++
      strChars "\n\n" ++ formatKagBody (i + 1) rest

/-- `formatKagExamples(examples)`: empty string for a null or empty
list, otherwise the header, the numbered examples, and the footer. -/
def formatKagExamples (examples : Option (List KagExample)) : List Char :=
  match examples with
  | none => []
  | some [] => []
  | some exs =>
    strChars "\n\n## RELEVANT EXAMPLES:\n\n" ++ formatKagBody 0 exs ++
      strChars "## END OF EXAMPLES\n\n"

/-- `systemPrompt.indexOf("\n\n")`: the first index at which a
blank-line paragraph break starts, if any. -/
def findBreak : List Char → Option Nat
  | '\n' :: '\n' :: _ => some 0
  | _ :: rest => (findBreak rest).map (· + 1)
  | [] => none

/-- `augmentPromptWithKagExamples(systemPrompt, examples)`: identity for
a null or empty example list; otherwise inserts the formatted block
after the first paragraph break, or appends it after `"\n\n"` when the
prompt has no break. -/
def augmentPromptWithKagExamples (systemPrompt : List Char)
    (examples : Option (List KagExample)) : List Char :=
  match examples with
  | none => systemPrompt
  | some [] => systemPrompt
  | some exs =>
    let formattedExamples := formatKagExamples (some exs)
    match findBreak systemPrompt with
    | some i =>
      systemPrompt.take (i + 2) ++ formattedExamples ++ systemPrompt.drop (i + 2)
    | none => systemPrompt ++ strChars "\n\n" ++ formattedExamples

/-! ## The KAG endpoints (`api/kag.js`, `api/kag-search.js`) -/

/-- Parsed request body of the KAG endpoints. -/
structure KagBody where
  query : Option String
  collectionName : Option String
  maxResults : Option Nat
  systemPrompt : Option String
deriving DecidableEq, Repr

/-- The KAG request: method and body-parse outcome. -/
structure KagRequest where
  method : String
  body : Except String KagBody
deriving DecidableEq, Repr

/-- Outcomes of the KAG handlers' external calls. -/
structure KagOracle where
  dbConnect : Except String Unit
  textFind : Except String (List KagExample)
deriving DecidableEq, Repr

/-- External actions of a KAG handler. -/
inductive KagEv where
  | connect
  | find (q : TextQuery)
deriving DecidableEq, Repr

/-- HTTP-level outcome of a KAG handler. -/
inductive KagResult where
  | options204
  | err (status : Nat) (error : String) (message : Option String)
  /-- `api/kag.js` with a system prompt: `augmentedPrompt`, `examples`,
  `count`. -/
  | okAugmented (augmentedPrompt : List Char) (examples : List KagExample)
      (count : Nat)
  /-- `api/kag.js` without a system prompt: `examples`, `count`,
  `formattedExamples`. -/
  | okPlain (examples : List KagExample) (count : Nat)
      (formattedExamples : List Char)
  /-- `api/kag-search.js`: the raw examples array. -/
  | okList (examples : List KagExample)
deriving DecidableEq, Repr

/-- `requestBody.maxResults || 3`: JS `||` takes the default when the
field is absent or `0` (falsy). -/
def jsOrDefault (v : Option Nat) (d : Nat) : Nat :=
  match v with
  | none => d
  | some n => if n = 0 then d else n

/-- The KAG endpoint handler (`module.exports` of `api/kag.js`). -/
def kagHandler (req : KagRequest) (mongoUri : Option String) (o : KagOracle) :
    KagResult × List KagEv :=
  if req.method = "OPTIONS" then (.options204, [])
  else if req.method ≠ "POST" then (.err 405 "Method Not Allowed" none, [])
  else
    match mongoUri with
    | none =>
      (.err 500 "Configuration error" (some "Database connection string not configured"), [])
    | some _ =>
      match req.body with
      | .error msg => (.err 400 "Invalid JSON in request body" (some msg), [])
      | .ok body =>
        if queryFalsy body.query then
          (.err 400 "Missing required parameter: query" none, [])
        else
          let query := body.query.getD ""
          let maxResults := jsOrDefault body.maxResults 3
          let systemPrompt := body.systemPrompt.getD ""
          match o.dbConnect with
          | .error msg => (.err 500 "Internal Server Error" (some msg), [.connect])
          | .ok _ =>
            match o.textFind with
            | .error msg =>
              (.err 500 "Internal Server Error" (some msg),
               [.connect, .find ⟨query, true, maxResults⟩])
            | .ok examples =>
              if systemPrompt ≠ "" then
                (.okAugmented
                  (augmentPromptWithKagExamples systemPrompt.data (some examples))
                  examples examples.length,
                 [.connect, .find ⟨query, true, maxResults⟩])
              else
                (.okPlain examples examples.length
                  (formatKagExamples (some examples)),
                 [.connect, .find ⟨query, true, maxResults⟩])

/-- The KAG search endpoint handler (`module.exports` of
`api/kag-search.js`): same validation, a fresh client per request, and
the raw examples array as the response. -/
def kagSearchHandler (req : KagRequest) (mongoUri : Option String)
    (o : KagOracle) : KagResult × List KagEv :=
  if req.method = "OPTIONS" then (.options204, [])
  else if req.method ≠ "POST" then (.err 405 "Method Not Allowed" none, [])
  else
    match mongoUri with
    | none =>
      (.err 500 "Configuration error" (some "Database connection string not configured"), [])
    | some _ =>
      match req.body with
      | .error msg => (.err 400 "Invalid JSON in request body" (some msg), [])
      | .ok body =>
        if queryFalsy body.query then
          (.err 400 "Missing required parameter: query" none, [])
        else
          let query := body.query.getD ""
          let maxResults := jsOrDefault body.maxResults 3
          match o.dbConnect with
          | .error msg => (.err 500 "Internal Server Error" (some msg), [.connect])
          | .ok _ =>
            match o.textFind with
            | .error msg =>
              (.err 500 "Internal Server Error" (some msg),
               [.connect, .find ⟨query, true, maxResults⟩])
            | .ok examples =>
              (.okList examples, [.connect, .find ⟨query, true, maxResults⟩])

/-! ## The offline import script (`data-import/import-to-mongodb.js`) -/

/-- One input line of the JSONL file, by its processing outcome:
blank after `trim()`, successfully parsed to a document, or a
`JSON.parse` failure.  Documents are identified abstractly. -/
inductive JLine where
  | blank
  | doc (d : Nat)
  | bad
deriving DecidableEq, Repr

/-- Database actions of the import script, in order. -/
inductive ImpEv where
  | createIndex
  | insertBatch (b : List Nat)
deriving DecidableEq, Repr

/-- The loop state of `importData`. -/
structure ImpState where
  lineCount : Nat
  importedCount : Nat
  errorCount : Nat
  batch : List Nat
  trace : List ImpEv
  aborted : Bool
deriving DecidableEq, Repr

/-- `BATCH_SIZE` of the import script. -/
def BATCH_SIZE : Nat := 1000

/-- One iteration of the `for await (const line of rl)` loop:
count the line; skip it when blank; push a parsed document and flush
the batch at `BATCH_SIZE`; count a parse error and set the abort flag
past 100 errors. -/
def impStep (st : ImpState) (l : JLine) : ImpState :=
  let st := { st with lineCount := st.lineCount + 1 }
  match l with
  | .blank => st
  | .doc d =>
    let batch := st.batch ++ [d]
    if batch.length ≥ BATCH_SIZE then
      { st with
        batch := []
        importedCount := st.importedCount + batch.length
        trace := st.trace ++ [.insertBatch batch] }
    else
      { st with batch := batch }
  | .bad =>
    let errorCount := st.errorCount + 1
    if errorCount > 100 then
      { st with errorCount := errorCount, aborted := true }
    else
      { st with errorCount := errorCount }

/-- The read loop: processes lines in order and `break`s as soon as a
step sets the abort flag, leaving the rest of the input unread. -/
def impLoop (st : ImpState) : List JLine → ImpState
  | [] => st
  | l :: rest =>
    let st' := impStep st l
    if st'.aborted then st' else impLoop st' rest

/-- The observable outcome of `importData`. -/
structure ImportOutcome where
  cancelled : Bool
  trace : List ImpEv
  lineCount : Nat
  importedCount : Nat
  errorCount : Nat
deriving DecidableEq, Repr

/-- `importData()`: cancel when the collection is non-empty and the
user does not answer `y`; otherwise create the text index, run the read
loop, and flush the final partial batch after the loop. -/
def importData (existingCount : Nat) (answerYes : Bool) (lines : List JLine) :
    ImportOutcome :=
  if existingCount > 0 && !answerYes then ⟨true, [], 0, 0, 0⟩
  else
    let st0 : ImpState := ⟨0, 0, 0, [], [ImpEv.createIndex], false⟩
    let st := impLoop st0 lines
    let st :=
      if st.batch.isEmpty then st
      else
        { st with
          importedCount := st.importedCount + st.batch.length
          trace := st.trace ++ [.insertBatch st.batch]
          batch := [] }
    ⟨false, st.trace, st.lineCount, st.importedCount, st.errorCount⟩

/-- The documents of the lines that parse successfully, in order. -/
def parsedDocs : List JLine → List Nat
  | [] => []
  | .doc d :: r => d :: parsedDocs r
  | _ :: r => parsedDocs r

/-- All documents inserted by a trace, in order. -/
def insertedDocs : List ImpEv → List Nat
  | [] => []
  | .insertBatch b :: r => b ++ insertedDocs r
  | _ :: r => insertedDocs r

/-- The number of lines that fail to parse. -/
def countBad : List JLine → Nat
  | [] => 0
  | .bad :: r => countBad r + 1
  | _ :: r => countBad r

/-- The prefix of the input the loop actually reads when it aborts on
the 101st parse error (the whole input when it never aborts), starting
from `errs` errors already seen. -/
def abortPrefix (errs : Nat) : List JLine → List JLine
  | [] => []
  | .bad :: ls =>
    if errs + 1 > 100 then [.bad] else .bad :: abortPrefix (errs + 1) ls
  | l :: ls => l :: abortPrefix errs ls

/-! ## Trace predicates and status projections used by the statements -/

/-- Whether an event is the `connectToDatabase` invocation. -/
def isConnect : Ev → Bool
  | .connect => true
  | _ => false

/-- Whether an event is the embeddings HTTP call. -/
def isEmbedCall : Ev → Bool
  | .embedCall _ _ => true
  | _ => false

/-- Whether an event is the vector-search aggregate. -/
def isSearchCall : Ev → Bool
  | .searchCall _ => true
  | _ => false

/-- Whether an event is the chat-completions HTTP call. -/
def isLlmCall : Ev → Bool
  | .llmCall _ => true
  | _ => false

/-- Whether an event is an invocation of `generateFallbackResponse`. -/
def isFallbackGen : Ev → Bool
  | .fallbackGen _ => true
  | _ => false

/-- Whether an event is the writing of the HTTP response. -/
def isRespond : Ev → Bool
  | .respond _ => true
  | _ => false

/-- The number of trace events satisfying a predicate. -/
def countIf (p : Ev → Bool) (t : List Ev) : Nat := (t.filter p).length

/-- Scan of a RAG trace checking the pipeline order.  The flags record
whether an embedding has been obtained and whether the prompt has been
assembled; a vector search requires the first, an LLM call the second,
and a written response must be the final event. -/
def seqOKAux : Bool → Bool → List Ev → Bool
  | _, _, [] => true
  | _, a, .embedOk _ :: r => seqOKAux true a r
  | e, _, .assemble _ :: r => seqOKAux e true r
  | e, a, .searchCall _ :: r => e && seqOKAux e a r
  | e, a, .llmCall _ :: r => a && seqOKAux e a r
  | _, _, .respond _ :: r => r.isEmpty
  | e, a, _ :: r => seqOKAux e a r

/-- A RAG trace respects the pipeline order. -/
def seqOK (t : List Ev) : Bool := seqOKAux false false t

/-- The HTTP status code of a RAG handler outcome. -/
def ragStatus : RagResult → Nat
  | .options204 => 204
  | .err s _ _ => s
  | .ok200 _ _ _ _ => 200

/-- The HTTP status code of a KAG handler outcome. -/
def kagStatus : KagResult → Nat
  | .options204 => 204
  | .err s _ _ => s
  | _ => 200

/-- The step record of a failed first connect: the wrapped error and a
freshly constructed client. -/
def failedStep : Except String Db → ConnectStep
  | .error m => ⟨.error ("Failed to connect to MongoDB: " ++ m), true⟩
  | .ok db => ⟨.ok db, true⟩

/-- Invariant of the import loop state: the imported count matches the
documents inserted so far, the pending batch is below `BATCH_SIZE`, and
every batch inserted from inside the loop was full. -/
abbrev goodState (st : ImpState) : Prop :=
  st.importedCount = (insertedDocs st.trace).length ∧
  st.batch.length < BATCH_SIZE ∧
  ∀ b, ImpEv.insertBatch b ∈ st.trace → b.length = BATCH_SIZE

/-! # Theorems

Helper lemmas come first; the claim theorems follow, one per claim. -/

theorem runConnects_cached (db : Db) (outs : List (Except String Db)) :
    runConnects (some db) outs =
      (some db, outs.map fun _ => ⟨Except.ok db, false⟩) := by
  induction outs with
  | nil => rfl
  | cons o os ih => simp [runConnects, connectToDatabase, ih]

/-- C3: the MongoDB connection cache is a single module-level variable:
over any call sequence whose first success stores a handle, every
earlier failed call constructed a client and threw, the first success
constructs a client and caches the handle, and every subsequent call
returns that same handle without constructing a client; the final cache
still holds that handle. -/
theorem mongo_connection_cache_stable
    (pre post : List (Except String Db)) (db : Db)
    (hpre : ∀ o ∈ pre, ∃ m, o = Except.error m) :
    runConnects none (pre ++ Except.ok db :: post) =
      (some db,
       pre.map failedStep ++
         ⟨Except.ok db, true⟩ :: post.map fun _ => ⟨Except.ok db, false⟩) := by
  induction pre with
  | nil => simp [runConnects, connectToDatabase, runConnects_cached]
  | cons o os ih =>
    obtain ⟨m, rfl⟩ := hpre o (List.mem_cons_self o os)
    have ih' := ih fun o' ho' => hpre o' (List.mem_cons_of_mem _ ho')
    simp [runConnects, connectToDatabase, failedStep, ih']

/-- Witness for C3 at a concrete call sequence. -/
theorem mongo_connection_cache_stable_witness :
    runConnects none
        [Except.error "a", Except.ok 7, Except.error "b", Except.ok 9] =
      (some 7,
       [⟨Except.error "Failed to connect to MongoDB: a", true⟩,
        ⟨Except.ok 7, true⟩, ⟨Except.ok 7, false⟩, ⟨Except.ok 7, false⟩]) := by
  have h := mongo_connection_cache_stable [Except.error "a"]
    [Except.error "b", Except.ok 9] 7
    (fun o ho => ⟨"a", by simpa using ho⟩)
  simpa [failedStep] using h

theorem runStream_chunks (cs : List String) :
    runStream (cs.map SEvent.chunk ++ [SEvent.ended]) =
      (cs.map (fun c => "data: " ++ c ++ "\n\n") ++ ["data: [DONE]\n\n"], true) := by
  induction cs with
  | nil => rfl
  | cons c cs ih => simp [runStream, onChunkWrite, ih]

/-- C4: for every upstream chunk the streaming endpoint writes exactly
`data: ` ++ chunk ++ two newlines, chunk for chunk with no re-framing,
and at the end of the upstream stream it writes `data: [DONE]` plus two
newlines and ends the client response. -/
theorem streaming_chunk_envelope (b k : String) (cs : List String) :
    streamingHandler ⟨"POST", Except.ok b⟩ (some k)
        ⟨Except.ok (), cs.map SEvent.chunk ++ [SEvent.ended]⟩ =
      StreamResult.streamed
        (cs.map (fun c => "data: " ++ c ++ "\n\n") ++ ["data: [DONE]\n\n"])
        true := by
  simp [streamingHandler, runStream_chunks]

theorem ragHandler_embed_err (b : RagBody) (q k u : String)
    (mc : Option String) (o : RagOracle) (msg : String)
    (hq : b.query = some q) (hq' : q ≠ "") (he : o.embedding = Except.error msg) :
    ragHandler ⟨"POST", Except.ok b⟩ ⟨some k, some u, mc⟩ o =
      (RagResult.ok200 (fallbackAnswer q) [] true
        (some ("Embedding failed: " ++ msg)),
       [.connect, .embedCall (b.modelName.getD "nomic-ai/nomic-embed-text-v1.5") q,
        .fallbackGen q,
        .respond (RagResult.ok200 (fallbackAnswer q) [] true
          (some ("Embedding failed: " ++ msg)))]) := by
  simp [ragHandler, hq, queryFalsy, hq', he]

theorem ragHandler_db_ok_search_ok_llm_ok (b : RagBody) (q k u : String)
    (mc : Option String) (o : RagOracle) (emb : List Int) (docs : List Doc)
    (ans : String) (hq : b.query = some q) (hq' : q ≠ "")
    (hd : o.dbConnect = Except.ok ()) (he : o.embedding = Except.ok emb)
    (hs : o.vectorSearch = Except.ok docs) (hl : o.llm = Except.ok ans) :
    ragHandler ⟨"POST", Except.ok b⟩ ⟨some k, some u, mc⟩ o =
      (RagResult.ok200 ans (docs.map mkSource) false none,
       [.connect, .embedCall (b.modelName.getD "nomic-ai/nomic-embed-text-v1.5") q,
        .embedOk emb, .searchCall (ragVectorQuery emb),
        .assemble (buildMessages false docs q),
        .llmCall (buildMessages false docs q),
        .respond (RagResult.ok200 ans (docs.map mkSource) false none)]) := by
  simp [ragHandler, hq, queryFalsy, hq', hd, he, hs, hl]

theorem ragHandler_db_ok_search_ok_llm_err (b : RagBody) (q k u : String)
    (mc : Option String) (o : RagOracle) (emb : List Int) (docs : List Doc)
    (m : String) (hq : b.query = some q) (hq' : q ≠ "")
    (hd : o.dbConnect = Except.ok ()) (he : o.embedding = Except.ok emb)
    (hs : o.vectorSearch = Except.ok docs) (hl : o.llm = Except.error m) :
    ragHandler ⟨"POST", Except.ok b⟩ ⟨some k, some u, mc⟩ o =
      (RagResult.err 500 ("LLM API error: " ++ m) none,
       [.connect, .embedCall (b.modelName.getD "nomic-ai/nomic-embed-text-v1.5") q,
        .embedOk emb, .searchCall (ragVectorQuery emb),
        .assemble (buildMessages false docs q),
        .llmCall (buildMessages false docs q),
        .respond (RagResult.err 500 ("LLM API error: " ++ m) none)]) := by
  simp [ragHandler, hq, queryFalsy, hq', hd, he, hs, hl]

theorem ragHandler_db_ok_search_err_llm_ok (b : RagBody) (q k u : String)
    (mc : Option String) (o : RagOracle) (emb : List Int) (sm ans : String)
    (hq : b.query = some q) (hq' : q ≠ "")
    (hd : o.dbConnect = Except.ok ()) (he : o.embedding = Except.ok emb)
    (hs : o.vectorSearch = Except.error sm) (hl : o.llm = Except.ok ans) :
    ragHandler ⟨"POST", Except.ok b⟩ ⟨some k, some u, mc⟩ o =
      (RagResult.ok200 ans [] true none,
       [.connect, .embedCall (b.modelName.getD "nomic-ai/nomic-embed-text-v1.5") q,
        .embedOk emb, .searchCall (ragVectorQuery emb),
        .assemble (buildMessages true [] q),
        .llmCall (buildMessages true [] q),
        .respond (RagResult.ok200 ans [] true none)]) := by
  simp [ragHandler, hq, queryFalsy, hq', hd, he, hs, hl]

theorem ragHandler_db_ok_search_err_llm_err (b : RagBody) (q k u : String)
    (mc : Option String) (o : RagOracle) (emb : List Int) (sm m : String)
    (hq : b.query = some q) (hq' : q ≠ "")
    (hd : o.dbConnect = Except.ok ()) (he : o.embedding = Except.ok emb)
    (hs : o.vectorSearch = Except.error sm) (hl : o.llm = Except.error m) :
    ragHandler ⟨"POST", Except.ok b⟩ ⟨some k, some u, mc⟩ o =
      (RagResult.err 500 ("LLM API error: " ++ m) none,
       [.connect, .embedCall (b.modelName.getD "nomic-ai/nomic-embed-text-v1.5") q,
        .embedOk emb, .searchCall (ragVectorQuery emb),
        .assemble (buildMessages true [] q),
        .llmCall (buildMessages true [] q),
        .respond (RagResult.err 500 ("LLM API error: " ++ m) none)]) := by
  simp [ragHandler, hq, queryFalsy, hq', hd, he, hs, hl]

theorem ragHandler_db_err_llm_ok (b : RagBody) (q k u : String)
    (mc : Option String) (o : RagOracle) (dm : String) (emb : List Int)
    (ans : String) (hq : b.query = some q) (hq' : q ≠ "")
    (hd : o.dbConnect = Except.error dm) (he : o.embedding = Except.ok emb)
    (hl : o.llm = Except.ok ans) :
    ragHandler ⟨"POST", Except.ok b⟩ ⟨some k, some u, mc⟩ o =
      (RagResult.ok200 ans [] true none,
       [.connect, .embedCall (b.modelName.getD "nomic-ai/nomic-embed-text-v1.5") q,
        .embedOk emb,
        .assemble (buildMessages true [] q),
        .llmCall (buildMessages true [] q),
        .respond (RagResult.ok200 ans [] true none)]) := by
  simp [ragHandler, hq, queryFalsy, hq', hd, he, hl]

theorem ragHandler_db_err_llm_err (b : RagBody) (q k u : String)
    (mc : Option String) (o : RagOracle) (dm : String) (emb : List Int)
    (m : String) (hq : b.query = some q) (hq' : q ≠ "")
    (hd : o.dbConnect = Except.error dm) (he : o.embedding = Except.ok emb)
    (hl : o.llm = Except.error m) :
    ragHandler ⟨"POST", Except.ok b⟩ ⟨some k, some u, mc⟩ o =
      (RagResult.err 500 ("LLM API error: " ++ m) none,
       [.connect, .embedCall (b.modelName.getD "nomic-ai/nomic-embed-text-v1.5") q,
        .embedOk emb,
        .assemble (buildMessages true [] q),
        .llmCall (buildMessages true [] q),
        .respond (RagResult.err 500 ("LLM API error: " ++ m) none)]) := by
  simp [ragHandler, hq, queryFalsy, hq', hd, he, hl]

theorem ragHandler_options (body : Except String RagBody) (env : RagEnv)
    (o : RagOracle) :
    ragHandler ⟨"OPTIONS", body⟩ env o =
      (RagResult.options204, [.respond RagResult.options204]) := by
  simp [ragHandler]

theorem ragHandler_bad_method (m : String) (body : Except String RagBody)
    (env : RagEnv) (o : RagOracle) (h1 : m ≠ "OPTIONS") (h2 : m ≠ "POST") :
    ragHandler ⟨m, body⟩ env o =
      (RagResult.err 405 "Method Not Allowed" none,
       [.respond (RagResult.err 405 "Method Not Allowed" none)]) := by
  simp [ragHandler, h1, h2]

theorem ragHandler_missing_key (body : Except String RagBody)
    (mu mcol : Option String) (o : RagOracle) :
    ragHandler ⟨"POST", body⟩ ⟨none, mu, mcol⟩ o =
      (RagResult.err 500 "Configuration error: Missing API keys or MongoDB URI" none,
       [.respond (RagResult.err 500 "Configuration error: Missing API keys or MongoDB URI" none)]) := by
  simp [ragHandler]

theorem ragHandler_missing_uri (body : Except String RagBody) (k : String)
    (mcol : Option String) (o : RagOracle) :
    ragHandler ⟨"POST", body⟩ ⟨some k, none, mcol⟩ o =
      (RagResult.err 500 "Configuration error: Missing API keys or MongoDB URI" none,
       [.respond (RagResult.err 500 "Configuration error: Missing API keys or MongoDB URI" none)]) := by
  simp [ragHandler]

theorem ragHandler_bad_body (pm : String) (k u : String) (mcol : Option String)
    (o : RagOracle) :
    ragHandler ⟨"POST", Except.error pm⟩ ⟨some k, some u, mcol⟩ o =
      (RagResult.err 400 "Invalid JSON in request body" (some pm),
       [.respond (RagResult.err 400 "Invalid JSON in request body" (some pm))]) := by
  simp [ragHandler]

theorem ragHandler_missing_query (b : RagBody) (k u : String)
    (mcol : Option String) (o : RagOracle) (hq : queryFalsy b.query = true) :
    ragHandler ⟨"POST", Except.ok b⟩ ⟨some k, some u, mcol⟩ o =
      (RagResult.err 400 "Missing query parameter" none,
       [.respond (RagResult.err 400 "Missing query parameter" none)]) := by
  simp [ragHandler, hq]

theorem ragHandler_early (req : RagRequest) (env : RagEnv) (o : RagOracle) :
    (∃ r, ragHandler req env o = (r, [Ev.respond r])) ∨
    (∃ b q k u, req.method = "POST" ∧ env.fireworksApiKey = some k ∧
      env.mongoDbUri = some u ∧ req.body = Except.ok b ∧
      b.query = some q ∧ q ≠ "") := by
  obtain ⟨m, body⟩ := req
  obtain ⟨fk, mu, mcol⟩ := env
  by_cases h1 : m = "OPTIONS"
  · subst h1; exact Or.inl ⟨_, ragHandler_options body ⟨fk, mu, mcol⟩ o⟩
  by_cases h2 : m = "POST"
  swap
  · exact Or.inl ⟨_, ragHandler_bad_method m body ⟨fk, mu, mcol⟩ o h1 h2⟩
  subst h2
  cases fk with
  | none => exact Or.inl ⟨_, ragHandler_missing_key body mu mcol o⟩
  | some k =>
    cases mu with
    | none => exact Or.inl ⟨_, ragHandler_missing_uri body k mcol o⟩
    | some u =>
      cases body with
      | error pm => exact Or.inl ⟨_, ragHandler_bad_body pm k u mcol o⟩
      | ok b =>
        by_cases h3 : queryFalsy b.query = true
        · exact Or.inl ⟨_, ragHandler_missing_query b k u mcol o h3⟩
        · cases hq : b.query with
          | none => exact absurd (by simp [queryFalsy, hq]) h3
          | some q =>
            refine Or.inr ⟨b, q, k, u, rfl, rfl, rfl, rfl, hq, ?_⟩
            intro hq'
            exact h3 (by simp [queryFalsy, hq, hq'])

theorem rag_no_retry (req : RagRequest) (env : RagEnv) (o : RagOracle) :
    countIf isConnect (ragHandler req env o).2 ≤ 1 ∧
    countIf isEmbedCall (ragHandler req env o).2 ≤ 1 ∧
    countIf isSearchCall (ragHandler req env o).2 ≤ 1 ∧
    countIf isLlmCall (ragHandler req env o).2 ≤ 1 := by
  obtain ⟨m, body⟩ := req
  obtain ⟨fk, mu, mcol⟩ := env
  rcases ragHandler_early ⟨m, body⟩ ⟨fk, mu, mcol⟩ o with ⟨r, hr⟩ |
    ⟨b, q, k, u, hm, hk, hu, hb, hq, hq'⟩
  · simp [hr, countIf, isConnect, isEmbedCall, isSearchCall, isLlmCall]
  · simp only at hm hk hu hb
    subst hm; subst hk; subst hu; subst hb
    obtain ⟨dbc, embo, vso, llmo⟩ := o
    cases embo with
    | error msg =>
      rw [ragHandler_embed_err b q k u mcol _ msg hq hq' rfl]
      simp [countIf, isConnect, isEmbedCall, isSearchCall, isLlmCall]
    | ok emb =>
      cases dbc with
      | error dm =>
        cases llmo with
        | ok ans =>
          rw [ragHandler_db_err_llm_ok b q k u mcol _ dm emb ans hq hq' rfl rfl rfl]
          simp [countIf, isConnect, isEmbedCall, isSearchCall, isLlmCall]
        | error lm =>
          rw [ragHandler_db_err_llm_err b q k u mcol _ dm emb lm hq hq' rfl rfl rfl]
          simp [countIf, isConnect, isEmbedCall, isSearchCall, isLlmCall]
      | ok uu =>
        cases uu
        cases vso with
        | ok docs =>
          cases llmo with
          | ok ans =>
            rw [ragHandler_db_ok_search_ok_llm_ok b q k u mcol _ emb docs ans
              hq hq' rfl rfl rfl rfl]
            simp [countIf, isConnect, isEmbedCall, isSearchCall, isLlmCall]
          | error lm =>
            rw [ragHandler_db_ok_search_ok_llm_err b q k u mcol _ emb docs lm
              hq hq' rfl rfl rfl rfl]
            simp [countIf, isConnect, isEmbedCall, isSearchCall, isLlmCall]
        | error sm =>
          cases llmo with
          | ok ans =>
            rw [ragHandler_db_ok_search_err_llm_ok b q k u mcol _ emb sm ans
              hq hq' rfl rfl rfl rfl]
            simp [countIf, isConnect, isEmbedCall, isSearchCall, isLlmCall]
          | error lm =>
            rw [ragHandler_db_ok_search_err_llm_err b q k u mcol _ emb sm lm
              hq hq' rfl rfl rfl rfl]
            simp [countIf, isConnect, isEmbedCall, isSearchCall, isLlmCall]

/-- C1: when the embedding step fails, the RAG handler returns the
canned fallback answer with empty sources and `fallback: true`; when the
embedding step succeeds, the canned fallback generator is never invoked
and the returned answer is the LLM answer (or a 500 LLM error); and no
external call (connect, embedding, search, LLM) is ever issued more
than once in a request. -/
theorem rag_single_fallback_compensation (req : RagRequest) (env : RagEnv)
    (o : RagOracle) (b : RagBody) (q k u : String)
    (hm : req.method = "POST") (hk : env.fireworksApiKey = some k)
    (hu : env.mongoDbUri = some u) (hb : req.body = Except.ok b)
    (hq : b.query = some q) (hq' : q ≠ "") :
    (∀ msg, o.embedding = Except.error msg →
      (ragHandler req env o).1 =
        RagResult.ok200 (fallbackAnswer q) [] true
          (some ("Embedding failed: " ++ msg))) ∧
    (∀ emb, o.embedding = Except.ok emb →
      countIf isFallbackGen (ragHandler req env o).2 = 0 ∧
      ((∃ lm, o.llm = Except.error lm ∧
          (ragHandler req env o).1 =
            RagResult.err 500 ("LLM API error: " ++ lm) none) ∨
       (∃ ans, o.llm = Except.ok ans ∧ ∃ srcs fb,
          (ragHandler req env o).1 = RagResult.ok200 ans srcs fb none))) ∧
    (∀ req' env' o',
      countIf isConnect (ragHandler req' env' o').2 ≤ 1 ∧
      countIf isEmbedCall (ragHandler req' env' o').2 ≤ 1 ∧
      countIf isSearchCall (ragHandler req' env' o').2 ≤ 1 ∧
      countIf isLlmCall (ragHandler req' env' o').2 ≤ 1) := by
  obtain ⟨m, body⟩ := req
  obtain ⟨fk, mu, mcol⟩ := env
  simp only at hm hk hu hb
  subst hm; subst hk; subst hu; subst hb
  refine ⟨?_, ?_, fun req' env' o' => rag_no_retry req' env' o'⟩
  · intro msg he
    rw [ragHandler_embed_err b q k u mcol o msg hq hq' he]
  · intro emb he
    obtain ⟨dbc, embo, vso, llmo⟩ := o
    simp only at he
    subst he
    cases dbc with
    | error dm =>
      cases llmo with
      | ok ans =>
        rw [ragHandler_db_err_llm_ok b q k u mcol _ dm emb ans hq hq' rfl rfl rfl]
        exact ⟨by simp [countIf, isFallbackGen],
          Or.inr ⟨ans, rfl, [], true, rfl⟩⟩
      | error lm =>
        rw [ragHandler_db_err_llm_err b q k u mcol _ dm emb lm hq hq' rfl rfl rfl]
        exact ⟨by simp [countIf, isFallbackGen], Or.inl ⟨lm, rfl, rfl⟩⟩
    | ok uu =>
      cases uu
      cases vso with
      | ok docs =>
        cases llmo with
        | ok ans =>
          rw [ragHandler_db_ok_search_ok_llm_ok b q k u mcol _ emb docs ans
            hq hq' rfl rfl rfl rfl]
          exact ⟨by simp [countIf, isFallbackGen],
            Or.inr ⟨ans, rfl, docs.map mkSource, false, rfl⟩⟩
        | error lm =>
          rw [ragHandler_db_ok_search_ok_llm_err b q k u mcol _ emb docs lm
            hq hq' rfl rfl rfl rfl]
          exact ⟨by simp [countIf, isFallbackGen], Or.inl ⟨lm, rfl, rfl⟩⟩
      | error sm =>
        cases llmo with
        | ok ans =>
          rw [ragHandler_db_ok_search_err_llm_ok b q k u mcol _ emb sm ans
            hq hq' rfl rfl rfl rfl]
          exact ⟨by simp [countIf, isFallbackGen],
            Or.inr ⟨ans, rfl, [], true, rfl⟩⟩
        | error lm =>
          rw [ragHandler_db_ok_search_err_llm_err b q k u mcol _ emb sm lm
            hq hq' rfl rfl rfl rfl]
          exact ⟨by simp [countIf, isFallbackGen], Or.inl ⟨lm, rfl, rfl⟩⟩

/-- Witness for C1: a concrete request whose embedding call fails
receives the canned fallback response. -/
theorem rag_single_fallback_compensation_witness :
    (ragHandler ⟨"POST", Except.ok ⟨some "hi", none, none⟩⟩
        ⟨some "k", some "u", none⟩
        ⟨Except.ok (), Except.error "boom", Except.ok [], Except.ok "ans"⟩).1 =
      RagResult.ok200 (fallbackAnswer "hi") [] true
        (some "Embedding failed: boom") :=
  (rag_single_fallback_compensation
    ⟨"POST", Except.ok ⟨some "hi", none, none⟩⟩ ⟨some "k", some "u", none⟩
    ⟨Except.ok (), Except.error "boom", Except.ok [], Except.ok "ans"⟩
    ⟨some "hi", none, none⟩ "hi" "k" "u"
    rfl rfl rfl rfl rfl (by decide)).1 "boom" rfl

/-- C2: for every POST request with a non-empty query the RAG trace
respects the pipeline order — no vector search before the embedding has
been obtained, no LLM call before prompt assembly, the response written
last — and whenever the embedding succeeds (so no early fallback or
error terminates the pipeline), the trace ends with the LLM call
followed immediately by the written response. -/
theorem rag_pipeline_order (req : RagRequest) (env : RagEnv) (o : RagOracle)
    (b : RagBody) (q : String) (hm : req.method = "POST")
    (hb : req.body = Except.ok b) (hq : b.query = some q) (hq' : q ≠ "") :
    seqOK (ragHandler req env o).2 = true ∧
    (∀ emb k u, o.embedding = Except.ok emb →
      env.fireworksApiKey = some k → env.mongoDbUri = some u →
      ∃ pre msgs r,
        (ragHandler req env o).2 = pre ++ [Ev.llmCall msgs, Ev.respond r]) := by
  obtain ⟨m, body⟩ := req
  obtain ⟨fk, mu, mcol⟩ := env
  simp only at hm hb
  subst hm; subst hb
  constructor
  · rcases ragHandler_early ⟨"POST", Except.ok b⟩ ⟨fk, mu, mcol⟩ o with ⟨r, hr⟩ |
      ⟨b', q', k, u, _, hk, hu, hb', hq2, hq2'⟩
    · simp [hr, seqOK, seqOKAux]
    · simp only at hk hu hb'
      subst hk; subst hu
      obtain rfl : b = b' := by simpa using hb'
      obtain ⟨dbc, embo, vso, llmo⟩ := o
      cases embo with
      | error msg =>
        rw [ragHandler_embed_err b q' k u mcol _ msg hq2 hq2' rfl]
        simp [seqOK, seqOKAux]
      | ok emb =>
        cases dbc with
        | error dm =>
          cases llmo with
          | ok ans =>
            rw [ragHandler_db_err_llm_ok b q' k u mcol _ dm emb ans hq2 hq2' rfl rfl rfl]
            simp [seqOK, seqOKAux]
          | error lm =>
            rw [ragHandler_db_err_llm_err b q' k u mcol _ dm emb lm hq2 hq2' rfl rfl rfl]
            simp [seqOK, seqOKAux]
        | ok uu =>
          cases uu
          cases vso with
          | ok docs =>
            cases llmo with
            | ok ans =>
              rw [ragHandler_db_ok_search_ok_llm_ok b q' k u mcol _ emb docs ans
                hq2 hq2' rfl rfl rfl rfl]
              simp [seqOK, seqOKAux]
            | error lm =>
              rw [ragHandler_db_ok_search_ok_llm_err b q' k u mcol _ emb docs lm
                hq2 hq2' rfl rfl rfl rfl]
              simp [seqOK, seqOKAux]
          | error sm =>
            cases llmo with
            | ok ans =>
              rw [ragHandler_db_ok_search_err_llm_ok b q' k u mcol _ emb sm ans
                hq2 hq2' rfl rfl rfl rfl]
              simp [seqOK, seqOKAux]
            | error lm =>
              rw [ragHandler_db_ok_search_err_llm_err b q' k u mcol _ emb sm lm
                hq2 hq2' rfl rfl rfl rfl]
              simp [seqOK, seqOKAux]
  · intro emb k u he hk hu
    simp only at hk hu
    subst hk; subst hu
    obtain ⟨dbc, embo, vso, llmo⟩ := o
    simp only at he
    subst he
    cases dbc with
    | error dm =>
      cases llmo with
      | ok ans =>
        rw [ragHandler_db_err_llm_ok b q k u mcol _ dm emb ans hq hq' rfl rfl rfl]
        exact ⟨[.connect, .embedCall (b.modelName.getD "nomic-ai/nomic-embed-text-v1.5") q,
          .embedOk emb, .assemble (buildMessages true [] q)], _, _, rfl⟩
      | error lm =>
        rw [ragHandler_db_err_llm_err b q k u mcol _ dm emb lm hq hq' rfl rfl rfl]
        exact ⟨[.connect, .embedCall (b.modelName.getD "nomic-ai/nomic-embed-text-v1.5") q,
          .embedOk emb, .assemble (buildMessages true [] q)], _, _, rfl⟩
    | ok uu =>
      cases uu
      cases vso with
      | ok docs =>
        cases llmo with
        | ok ans =>
          rw [ragHandler_db_ok_search_ok_llm_ok b q k u mcol _ emb docs ans
            hq hq' rfl rfl rfl rfl]
          exact ⟨[.connect, .embedCall (b.modelName.getD "nomic-ai/nomic-embed-text-v1.5") q,
            .embedOk emb, .searchCall (ragVectorQuery emb),
            .assemble (buildMessages false docs q)], _, _, rfl⟩
        | error lm =>
          rw [ragHandler_db_ok_search_ok_llm_err b q k u mcol _ emb docs lm
            hq hq' rfl rfl rfl rfl]
          exact ⟨[.connect, .embedCall (b.modelName.getD "nomic-ai/nomic-embed-text-v1.5") q,
            .embedOk emb, .searchCall (ragVectorQuery emb),
            .assemble (buildMessages false docs q)], _, _, rfl⟩
      | error sm =>
        cases llmo with
        | ok ans =>
          rw [ragHandler_db_ok_search_err_llm_ok b q k u mcol _ emb sm ans
            hq hq' rfl rfl rfl rfl]
          exact ⟨[.connect, .embedCall (b.modelName.getD "nomic-ai/nomic-embed-text-v1.5") q,
            .embedOk emb, .searchCall (ragVectorQuery emb),
            .assemble (buildMessages true [] q)], _, _, rfl⟩
        | error lm =>
          rw [ragHandler_db_ok_search_err_llm_err b q k u mcol _ emb sm lm
            hq hq' rfl rfl rfl rfl]
          exact ⟨[.connect, .embedCall (b.modelName.getD "nomic-ai/nomic-embed-text-v1.5") q,
            .embedOk emb, .searchCall (ragVectorQuery emb),
            .assemble (buildMessages true [] q)], _, _, rfl⟩

/-- Witness for C2 at a concrete request and oracle. -/
theorem rag_pipeline_order_witness :
    seqOK (ragHandler ⟨"POST", Except.ok ⟨some "hi", none, none⟩⟩
        ⟨some "k", some "u", none⟩
        ⟨Except.ok (), Except.ok [1], Except.ok [], Except.ok "ans"⟩).2 = true :=
  (rag_pipeline_order ⟨"POST", Except.ok ⟨some "hi", none, none⟩⟩
    ⟨some "k", some "u", none⟩
    ⟨Except.ok (), Except.ok [1], Except.ok [], Except.ok "ans"⟩
    ⟨some "hi", none, none⟩ "hi" rfl rfl rfl (by decide)).1

/-- C9: the RAG success response's sources are the retrieved documents
in the database's order, with instruction, context and score passed
through unchanged and the response field equal to the document's
response when at most 200 characters long, else its first 200
characters followed by `...`. -/
theorem rag_sources_shape (req : RagRequest) (env : RagEnv) (o : RagOracle)
    (b : RagBody) (q k u : String) (emb : List Int) (docs : List Doc)
    (ans : String)
    (hm : req.method = "POST") (hk : env.fireworksApiKey = some k)
    (hu : env.mongoDbUri = some u) (hb : req.body = Except.ok b)
    (hq : b.query = some q) (hq' : q ≠ "")
    (hd : o.dbConnect = Except.ok ()) (he : o.embedding = Except.ok emb)
    (hs : o.vectorSearch = Except.ok docs) (hl : o.llm = Except.ok ans) :
    (ragHandler req env o).1 =
      RagResult.ok200 ans (docs.map mkSource) false none ∧
    (∀ d : Doc, (mkSource d).instruction = d.instruction ∧
      (mkSource d).context = d.context ∧ (mkSource d).score = d.score) ∧
    (∀ d : Doc, d.response.data.length ≤ 200 →
      (mkSource d).response = d.response) ∧
    (∀ d : Doc, 200 < d.response.data.length →
      (mkSource d).response = String.mk (d.response.data.take 200) ++ "...") ∧
    (∀ i : Nat, (docs.map mkSource)[i]? = docs[i]?.map mkSource) := by
  obtain ⟨m, body⟩ := req
  obtain ⟨fk, mu, mcol⟩ := env
  simp only at hm hk hu hb
  subst hm; subst hk; subst hu; subst hb
  refine ⟨?_, fun d => ⟨rfl, rfl, rfl⟩, ?_, ?_, fun i => by simp⟩
  · rw [ragHandler_db_ok_search_ok_llm_ok b q k u mcol o emb docs ans
      hq hq' hd he hs hl]
  · intro d hd2
    have hnot : ¬(d.response.data.length > 200) := Nat.not_lt.mpr hd2
    simp only [mkSource, if_neg hnot, List.take_of_length_le hd2]
    show String.mk d.response.data ++ "" = d.response
    simp
  · intro d hd2
    simp only [mkSource, if_pos hd2]

/-- Witness for C9 at a concrete retrieved document. -/
theorem rag_sources_shape_witness :
    (ragHandler ⟨"POST", Except.ok ⟨some "hi", none, none⟩⟩
        ⟨some "k", some "u", none⟩
        ⟨Except.ok (), Except.ok [1], Except.ok [⟨"i", "c", "r", 9⟩],
         Except.ok "ans"⟩).1 =
      RagResult.ok200 "ans" (List.map mkSource [⟨"i", "c", "r", 9⟩]) false none :=
  (rag_sources_shape ⟨"POST", Except.ok ⟨some "hi", none, none⟩⟩
    ⟨some "k", some "u", none⟩
    ⟨Except.ok (), Except.ok [1], Except.ok [⟨"i", "c", "r", 9⟩], Except.ok "ans"⟩
    ⟨some "hi", none, none⟩ "hi" "k" "u" [1] [⟨"i", "c", "r", 9⟩] "ans"
    rfl rfl rfl rfl rfl (by decide) rfl rfl rfl rfl).1

theorem augment_with_break (p : List Char) (e : KagExample)
    (es : List KagExample) (i : Nat) (hi : findBreak p = some i) :
    augmentPromptWithKagExamples p (some (e :: es)) =
      p.take (i + 2) ++ formatKagExamples (some (e :: es)) ++ p.drop (i + 2) := by
  simp [augmentPromptWithKagExamples, hi]

theorem augment_no_break (p : List Char) (e : KagExample)
    (es : List KagExample) (hn : findBreak p = none) :
    augmentPromptWithKagExamples p (some (e :: es)) =
      p ++ strChars "\n\n" ++ formatKagExamples (some (e :: es)) := by
  simp [augmentPromptWithKagExamples, hn]

/-- C8: `augmentPromptWithKagExamples` is the identity for a null or
empty example list; for a non-empty list it splits the prompt at the
first blank-line break (or keeps it wholly as a prefix when none
exists) and inserts the formatted block, so the original prompt's
characters appear in order, none lost or reordered. -/
theorem augment_prompt_preserves (p : List Char) (exs : List KagExample) :
    augmentPromptWithKagExamples p none = p ∧
    augmentPromptWithKagExamples p (some []) = p ∧
    (∀ i, findBreak p = some i → exs ≠ [] →
      augmentPromptWithKagExamples p (some exs) =
        p.take (i + 2) ++ formatKagExamples (some exs) ++ p.drop (i + 2)) ∧
    (findBreak p = none → exs ≠ [] →
      augmentPromptWithKagExamples p (some exs) =
        p ++ strChars "\n\n" ++ formatKagExamples (some exs)) ∧
    (exs ≠ [] → ∃ k mid, augmentPromptWithKagExamples p (some exs) =
      p.take k ++ mid ++ p.drop k) := by
  refine ⟨rfl, rfl, ?_, ?_, ?_⟩
  · intro i hi hne
    cases exs with
    | nil => exact absurd rfl hne
    | cons e es => exact augment_with_break p e es i hi
  · intro hn hne
    cases exs with
    | nil => exact absurd rfl hne
    | cons e es => exact augment_no_break p e es hn
  · intro hne
    cases exs with
    | nil => exact absurd rfl hne
    | cons e es =>
      cases hfb : findBreak p with
      | some i =>
        exact ⟨i + 2, formatKagExamples (some (e :: es)),
          augment_with_break p e es i hfb⟩
      | none =>
        refine ⟨p.length, strChars "\n\n" ++ formatKagExamples (some (e :: es)), ?_⟩
        rw [augment_no_break p e es hfb, List.take_length, List.drop_length,
          List.append_nil, List.append_assoc]

/-- Witness for C8: inserting one example into a prompt with a
blank-line break splits it at the break. -/
theorem augment_prompt_preserves_witness :
    augmentPromptWithKagExamples (strChars "a\n\nb")
        (some [⟨"in", "out", 1⟩]) =
      (strChars "a\n\nb").take 3 ++
        formatKagExamples (some [⟨"in", "out", 1⟩]) ++
        (strChars "a\n\nb").drop 3 :=
  (augment_prompt_preserves (strChars "a\n\nb") [⟨"in", "out", 1⟩]).2.2.1 1
    rfl (by simp)

theorem insertedDocs_append (t₁ t₂ : List ImpEv) :
    insertedDocs (t₁ ++ t₂) = insertedDocs t₁ ++ insertedDocs t₂ := by
  induction t₁ with
  | nil => rfl
  | cons e t ih => cases e <;> simp [insertedDocs, ih]

theorem impLoop_inv (ls : List JLine) (st : ImpState)
    (hgood : goodState st) (hab : st.aborted = false) :
    goodState (impLoop st ls) ∧
    (∃ t, (impLoop st ls).trace = st.trace ++ t ∧
      ∀ e ∈ t, ∃ b, e = ImpEv.insertBatch b ∧ b.length = BATCH_SIZE) ∧
    insertedDocs (impLoop st ls).trace ++ (impLoop st ls).batch =
      insertedDocs st.trace ++ st.batch ++
        parsedDocs (abortPrefix st.errorCount ls) ∧
    (impLoop st ls).errorCount =
      st.errorCount + countBad (abortPrefix st.errorCount ls) := by
  induction ls generalizing st with
  | nil =>
    exact ⟨hgood, ⟨[], by simp [impLoop], by simp⟩,
      by simp [impLoop, abortPrefix, parsedDocs],
      by simp [impLoop, abortPrefix, countBad]⟩
  | cons l ls ih =>
    obtain ⟨lc, ic, ec, batch, trace, ab⟩ := st
    simp only at hab
    subst hab
    obtain ⟨hic, hbl, hfull⟩ := hgood
    simp only at hic hbl hfull
    cases l with
    | blank =>
      have h := ih ⟨lc + 1, ic, ec, batch, trace, false⟩ ⟨hic, hbl, hfull⟩ rfl
      simpa [impLoop, impStep, abortPrefix, parsedDocs, countBad] using h
    | doc d =>
      by_cases hflush : BATCH_SIZE ≤ batch.length + 1
      · have hlen : (batch ++ [d]).length = BATCH_SIZE := by
          simp only [List.length_append, List.length_singleton]
          omega
        have hgood' : goodState ⟨lc + 1, ic + (batch ++ [d]).length, ec, [],
            trace ++ [ImpEv.insertBatch (batch ++ [d])], false⟩ := by
          refine ⟨?_, by simp [BATCH_SIZE], ?_⟩
          · simp [insertedDocs_append, insertedDocs, hic]
          · intro b hb
            simp only [List.mem_append, List.mem_singleton] at hb
            rcases hb with hb | hb
            · exact hfull b hb
            · cases hb; exact hlen
        have h := ih _ hgood' rfl
        have hred : impLoop ⟨lc, ic, ec, batch, trace, false⟩ (JLine.doc d :: ls) =
            impLoop ⟨lc + 1, ic + (batch ++ [d]).length, ec, [],
              trace ++ [ImpEv.insertBatch (batch ++ [d])], false⟩ ls := by
          simp [impLoop, impStep, hflush]
        rw [hred]
        obtain ⟨h1, ⟨t, ht, htall⟩, h3, h4⟩ := h
        refine ⟨h1, ⟨ImpEv.insertBatch (batch ++ [d]) :: t, ?_, ?_⟩, ?_, ?_⟩
        · simpa using ht
        · intro e he
          rcases List.mem_cons.mp he with he | he
          · exact ⟨batch ++ [d], he, hlen⟩
          · exact htall e he
        · simp only at h3 ⊢
          rw [h3]
          simp [insertedDocs_append, insertedDocs, abortPrefix, parsedDocs]
        · simpa [abortPrefix, countBad] using h4
      · have hgood' : goodState ⟨lc + 1, ic, ec, batch ++ [d], trace, false⟩ := by
          refine ⟨hic, ?_, hfull⟩
          simp only [List.length_append, List.length_singleton]
          omega
        have h := ih _ hgood' rfl
        have hred : impLoop ⟨lc, ic, ec, batch, trace, false⟩ (JLine.doc d :: ls) =
            impLoop ⟨lc + 1, ic, ec, batch ++ [d], trace, false⟩ ls := by
          simp [impLoop, impStep, hflush]
        rw [hred]
        obtain ⟨h1, h2, h3, h4⟩ := h
        refine ⟨h1, h2, ?_, ?_⟩
        · simp only at h3 ⊢
          rw [h3]
          simp [abortPrefix, parsedDocs]
        · simpa [abortPrefix, countBad] using h4
    | bad =>
      by_cases hcap : ec + 1 > 100
      · have hred : impLoop ⟨lc, ic, ec, batch, trace, false⟩ (JLine.bad :: ls) =
            ⟨lc + 1, ic, ec + 1, batch, trace, true⟩ := by
          simp [impLoop, impStep, hcap]
        rw [hred]
        refine ⟨⟨hic, hbl, hfull⟩, ⟨[], by simp, by simp⟩, ?_, ?_⟩
        · simp [abortPrefix, hcap, parsedDocs]
        · simp [abortPrefix, hcap, countBad]
      · have h := ih ⟨lc + 1, ic, ec + 1, batch, trace, false⟩ ⟨hic, hbl, hfull⟩ rfl
        have hred : impLoop ⟨lc, ic, ec, batch, trace, false⟩ (JLine.bad :: ls) =
            impLoop ⟨lc + 1, ic, ec + 1, batch, trace, false⟩ ls := by
          simp [impLoop, impStep, hcap]
        rw [hred]
        obtain ⟨h1, h2, h3, h4⟩ := h
        refine ⟨h1, h2, ?_, ?_⟩
        · simp only at h3 ⊢
          rw [h3]
          simp [abortPrefix, hcap, parsedDocs]
        · simp only at h4 ⊢
          rw [h4]
          simp [abortPrefix, hcap, countBad]
          omega

theorem abortPrefix_of_le (ls : List JLine) (errs : Nat)
    (h : errs + countBad ls ≤ 100) : abortPrefix errs ls = ls := by
  induction ls generalizing errs with
  | nil => rfl
  | cons l ls ih =>
    cases l with
    | blank =>
      simp only [countBad] at h
      simp [abortPrefix, ih errs h]
    | doc d =>
      simp only [countBad] at h
      simp [abortPrefix, ih errs h]
    | bad =>
      simp only [countBad] at h
      have h1 : ¬ errs + 1 > 100 := by omega
      simp [abortPrefix, h1, ih (errs + 1) (by omega)]

theorem impLoop_abortPrefix (ls : List JLine) (st : ImpState)
    (hab : st.aborted = false) :
    impLoop st ls = impLoop st (abortPrefix st.errorCount ls) := by
  induction ls generalizing st with
  | nil => rfl
  | cons l ls ih =>
    obtain ⟨lc, ic, ec, batch, trace, ab⟩ := st
    simp only at hab
    subst hab
    cases l with
    | blank =>
      have h := ih ⟨lc + 1, ic, ec, batch, trace, false⟩ rfl
      simpa [impLoop, impStep, abortPrefix] using h
    | doc d =>
      by_cases hflush : BATCH_SIZE ≤ batch.length + 1
      · have h := ih ⟨lc + 1, ic + (batch ++ [d]).length, ec, [],
          trace ++ [ImpEv.insertBatch (batch ++ [d])], false⟩ rfl
        simp only at h
        calc impLoop ⟨lc, ic, ec, batch, trace, false⟩ (JLine.doc d :: ls) =
              impLoop ⟨lc + 1, ic + (batch ++ [d]).length, ec, [],
                trace ++ [ImpEv.insertBatch (batch ++ [d])], false⟩ ls := by
                simp [impLoop, impStep, hflush]
          _ = impLoop ⟨lc + 1, ic + (batch ++ [d]).length, ec, [],
                trace ++ [ImpEv.insertBatch (batch ++ [d])], false⟩
                (abortPrefix ec ls) := h
          _ = impLoop ⟨lc, ic, ec, batch, trace, false⟩
                (abortPrefix ec (JLine.doc d :: ls)) := by
                simp [impLoop, impStep, abortPrefix, hflush]
      · have h := ih ⟨lc + 1, ic, ec, batch ++ [d], trace, false⟩ rfl
        simp only at h
        calc impLoop ⟨lc, ic, ec, batch, trace, false⟩ (JLine.doc d :: ls) =
              impLoop ⟨lc + 1, ic, ec, batch ++ [d], trace, false⟩ ls := by
                simp [impLoop, impStep, hflush]
          _ = impLoop ⟨lc + 1, ic, ec, batch ++ [d], trace, false⟩
                (abortPrefix ec ls) := h
          _ = impLoop ⟨lc, ic, ec, batch, trace, false⟩
                (abortPrefix ec (JLine.doc d :: ls)) := by
                simp [impLoop, impStep, abortPrefix, hflush]
    | bad =>
      by_cases hcap : ec + 1 > 100
      · simp [impLoop, impStep, abortPrefix, hcap]
      · have h := ih ⟨lc + 1, ic, ec + 1, batch, trace, false⟩ rfl
        simp only at h
        calc impLoop ⟨lc, ic, ec, batch, trace, false⟩ (JLine.bad :: ls) =
              impLoop ⟨lc + 1, ic, ec + 1, batch, trace, false⟩ ls := by
                simp [impLoop, impStep, hcap]
          _ = impLoop ⟨lc + 1, ic, ec + 1, batch, trace, false⟩
                (abortPrefix (ec + 1) ls) := h
          _ = impLoop ⟨lc, ic, ec, batch, trace, false⟩
                (abortPrefix ec (JLine.bad :: ls)) := by
                simp [impLoop, impStep, abortPrefix, hcap]

theorem importData_eq (existingCount : Nat) (answerYes : Bool)
    (lines : List JLine)
    (hcond : (decide (existingCount > 0) && !answerYes) = false) :
    importData existingCount answerYes lines =
      (if (impLoop ⟨0, 0, 0, [], [ImpEv.createIndex], false⟩ lines).batch.isEmpty then
        ⟨false, (impLoop ⟨0, 0, 0, [], [ImpEv.createIndex], false⟩ lines).trace,
         (impLoop ⟨0, 0, 0, [], [ImpEv.createIndex], false⟩ lines).lineCount,
         (impLoop ⟨0, 0, 0, [], [ImpEv.createIndex], false⟩ lines).importedCount,
         (impLoop ⟨0, 0, 0, [], [ImpEv.createIndex], false⟩ lines).errorCount⟩
      else
        ⟨false, (impLoop ⟨0, 0, 0, [], [ImpEv.createIndex], false⟩ lines).trace ++
           [ImpEv.insertBatch (impLoop ⟨0, 0, 0, [], [ImpEv.createIndex], false⟩ lines).batch],
         (impLoop ⟨0, 0, 0, [], [ImpEv.createIndex], false⟩ lines).lineCount,
         (impLoop ⟨0, 0, 0, [], [ImpEv.createIndex], false⟩ lines).importedCount +
           (impLoop ⟨0, 0, 0, [], [ImpEv.createIndex], false⟩ lines).batch.length,
         (impLoop ⟨0, 0, 0, [], [ImpEv.createIndex], false⟩ lines).errorCount⟩) := by
  simp only [importData, hcond, Bool.false_eq_true, if_false]
  by_cases hbe : (impLoop ⟨0, 0, 0, [], [ImpEv.createIndex], false⟩ lines).batch.isEmpty
  · simp [hbe]
  · simp [hbe]

/-- C5: on the proceed path the import script creates the text index
before any insert, skips blank lines, inserts every successfully parsed
document exactly once in batches — every batch inserted inside the loop
of size exactly `BATCH_SIZE`, the final partial batch flushed after the
loop — and reports an imported count equal to the number of
successfully parsed non-blank lines. -/
theorem import_batches (existingCount : Nat) (answerYes : Bool)
    (lines : List JLine) (hok : existingCount = 0 ∨ answerYes = true)
    (herr : countBad lines ≤ 100) :
    (importData existingCount answerYes lines).cancelled = false ∧
    (∃ rest, (importData existingCount answerYes lines).trace =
      ImpEv.createIndex :: rest ∧ ∀ e ∈ rest, ∃ b, e = ImpEv.insertBatch b) ∧
    insertedDocs (importData existingCount answerYes lines).trace =
      parsedDocs lines ∧
    (importData existingCount answerYes lines).importedCount =
      (parsedDocs lines).length ∧
    (importData existingCount answerYes lines).errorCount = countBad lines ∧
    (∀ b, ImpEv.insertBatch b ∈
        (importData existingCount answerYes lines).trace.dropLast →
      b.length = BATCH_SIZE) ∧
    (∀ b, ImpEv.insertBatch b ∈ (importData existingCount answerYes lines).trace →
      0 < b.length ∧ b.length ≤ BATCH_SIZE) := by
  have hcond : (decide (existingCount > 0) && !answerYes) = false := by
    rcases hok with h | h
    · subst h; simp
    · subst h; simp
  have good0 : goodState ⟨0, 0, 0, [], [ImpEv.createIndex], false⟩ :=
    ⟨rfl, by simp [BATCH_SIZE], by simp [insertedDocs]⟩
  obtain ⟨⟨hR1, hR2, hR3⟩, ⟨t, ht, htall⟩, h3, h4⟩ :=
    impLoop_inv lines ⟨0, 0, 0, [], [ImpEv.createIndex], false⟩ good0 rfl
  rw [abortPrefix_of_le lines 0 (by omega)] at h3 h4
  simp only [insertedDocs, List.nil_append] at h3
  simp only [countBad, Nat.zero_add] at h4
  simp only at ht
  rw [importData_eq existingCount answerYes lines hcond]
  by_cases hbe : (impLoop ⟨0, 0, 0, [], [ImpEv.createIndex], false⟩ lines).batch.isEmpty
  · have hbnil : (impLoop ⟨0, 0, 0, [], [ImpEv.createIndex], false⟩ lines).batch = [] := by
      simpa using hbe
    rw [hbnil, List.append_nil] at h3
    rw [if_pos hbe]
    refine ⟨rfl, ⟨t, by simpa using ht, fun e he => ?_⟩, h3, ?_, h4, ?_, ?_⟩
    · obtain ⟨b, hb, _⟩ := htall e he
      exact ⟨b, hb⟩
    · simp only
      rw [hR1, h3]
    · intro b hb
      simp only at hb
      exact hR3 b (List.dropLast_subset _ hb)
    · intro b hb
      simp only at hb
      have hL := hR3 b hb
      exact ⟨by rw [hL]; simp [BATCH_SIZE], Nat.le_of_eq hL⟩
  · have hbne : (impLoop ⟨0, 0, 0, [], [ImpEv.createIndex], false⟩ lines).batch ≠ [] := by
      simpa using hbe
    rw [if_neg hbe]
    have hins : insertedDocs ((impLoop ⟨0, 0, 0, [], [ImpEv.createIndex], false⟩ lines).trace ++
        [ImpEv.insertBatch (impLoop ⟨0, 0, 0, [], [ImpEv.createIndex], false⟩ lines).batch]) =
        parsedDocs lines := by
      rw [insertedDocs_append]
      simpa [insertedDocs] using h3
    refine ⟨rfl, ?_, hins, ?_, h4, ?_, ?_⟩
    · refine ⟨t ++ [ImpEv.insertBatch (impLoop ⟨0, 0, 0, [], [ImpEv.createIndex], false⟩ lines).batch], ?_, ?_⟩
      · simp only
        rw [ht]
        simp
      · intro e he
        rcases List.mem_append.mp he with he | he
        · obtain ⟨b, hb, _⟩ := htall e he
          exact ⟨b, hb⟩
        · simp only [List.mem_singleton] at he
          exact ⟨_, he⟩
    · simp only
      rw [hR1, ← h3, List.length_append]
    · intro b hb
      simp only at hb
      rw [List.dropLast_concat] at hb
      exact hR3 b hb
    · intro b hb
      simp only at hb
      rcases List.mem_append.mp hb with hb | hb
      · have hL := hR3 b hb
        exact ⟨by rw [hL]; simp [BATCH_SIZE], Nat.le_of_eq hL⟩
      · simp only [List.mem_singleton, ImpEv.insertBatch.injEq] at hb
        subst hb
        exact ⟨List.length_pos.mpr hbne, Nat.le_of_lt hR2⟩

/-- Witness for C5 at a concrete line list with a parsed, a blank, a
malformed and another parsed line. -/
theorem import_batches_witness :
    insertedDocs (importData 0 false
        [JLine.doc 5, JLine.blank, JLine.bad, JLine.doc 6]).trace =
      parsedDocs [JLine.doc 5, JLine.blank, JLine.bad, JLine.doc 6] ∧
    (importData 0 false
        [JLine.doc 5, JLine.blank, JLine.bad, JLine.doc 6]).importedCount =
      (parsedDocs [JLine.doc 5, JLine.blank, JLine.bad, JLine.doc 6]).length :=
  ⟨(import_batches 0 false [JLine.doc 5, JLine.blank, JLine.bad, JLine.doc 6]
      (Or.inl rfl) (by decide)).2.2.1,
   (import_batches 0 false [JLine.doc 5, JLine.blank, JLine.bad, JLine.doc 6]
      (Or.inl rfl) (by decide)).2.2.2.1⟩

theorem countBad_abortPrefix (ls : List JLine) (errs : Nat) (h : errs ≤ 100) :
    countBad (abortPrefix errs ls) + errs ≤ 101 := by
  induction ls generalizing errs with
  | nil => simp [abortPrefix, countBad]; omega
  | cons l ls ih =>
    cases l with
    | blank => simpa [abortPrefix, countBad] using ih errs h
    | doc d => simpa [abortPrefix, countBad] using ih errs h
    | bad =>
      by_cases hcap : errs + 1 > 100
      · simp [abortPrefix, hcap, countBad]
        omega
      · have := ih (errs + 1) (by omega)
        simp [abortPrefix, hcap, countBad]
        omega

/-- C10: the import loop stops reading input as soon as more than 100
lines have failed to parse — the outcome depends only on the prefix up
to the 101st parse error — and even then every document parsed before
the abort is inserted, because the partial batch is flushed after the
loop. -/
theorem import_abort (existingCount : Nat) (answerYes : Bool)
    (lines : List JLine) :
    importData existingCount answerYes lines =
      importData existingCount answerYes (abortPrefix 0 lines) ∧
    countBad (abortPrefix 0 lines) ≤ 101 ∧
    ((existingCount = 0 ∨ answerYes = true) →
      insertedDocs (importData existingCount answerYes lines).trace =
        parsedDocs (abortPrefix 0 lines) ∧
      (importData existingCount answerYes lines).importedCount =
        (parsedDocs (abortPrefix 0 lines)).length) := by
  refine ⟨?_, by simpa using countBad_abortPrefix lines 0 (by omega), ?_⟩
  · by_cases hcond : (decide (existingCount > 0) && !answerYes) = false
    · rw [importData_eq _ _ lines hcond,
        importData_eq _ _ (abortPrefix 0 lines) hcond,
        ← impLoop_abortPrefix lines ⟨0, 0, 0, [], [ImpEv.createIndex], false⟩ rfl]
    · have hcond' : (decide (existingCount > 0) && !answerYes) = true := by
        simpa using hcond
      simp [importData, hcond']
  · intro hok
    have hcond : (decide (existingCount > 0) && !answerYes) = false := by
      rcases hok with h | h
      · subst h; simp
      · subst h; simp
    have good0 : goodState ⟨0, 0, 0, [], [ImpEv.createIndex], false⟩ :=
      ⟨rfl, by simp [BATCH_SIZE], by simp [insertedDocs]⟩
    obtain ⟨⟨hR1, hR2, hR3⟩, _, h3, _⟩ :=
      impLoop_inv lines ⟨0, 0, 0, [], [ImpEv.createIndex], false⟩ good0 rfl
    simp only [insertedDocs, List.nil_append] at h3
    rw [importData_eq existingCount answerYes lines hcond]
    by_cases hbe : (impLoop ⟨0, 0, 0, [], [ImpEv.createIndex], false⟩ lines).batch.isEmpty
    · have hbnil : (impLoop ⟨0, 0, 0, [], [ImpEv.createIndex], false⟩ lines).batch = [] := by
        simpa using hbe
      rw [hbnil, List.append_nil] at h3
      rw [if_pos hbe]
      exact ⟨h3, by simp only; rw [hR1, h3]⟩
    · rw [if_neg hbe]
      have hins : insertedDocs ((impLoop ⟨0, 0, 0, [], [ImpEv.createIndex], false⟩ lines).trace ++
          [ImpEv.insertBatch (impLoop ⟨0, 0, 0, [], [ImpEv.createIndex], false⟩ lines).batch]) =
          parsedDocs (abortPrefix 0 lines) := by
        rw [insertedDocs_append]
        simpa [insertedDocs] using h3
      exact ⟨hins, by simp only; rw [hR1, ← h3, List.length_append]⟩

/-- Witness for C10: with 102 malformed lines followed by a document,
the inserted documents are exactly those of the abort prefix. -/
theorem import_abort_witness :
    insertedDocs (importData 0 true
        (List.replicate 102 JLine.bad ++ [JLine.doc 7])).trace =
      parsedDocs (abortPrefix 0 (List.replicate 102 JLine.bad ++ [JLine.doc 7])) :=
  ((import_abort 0 true (List.replicate 102 JLine.bad ++ [JLine.doc 7])).2.2
    (Or.inr rfl)).1

theorem kagHandler_connect_err (kb : KagBody) (q mu msg : String)
    (o : KagOracle) (hq : kb.query = some q) (hq' : q ≠ "")
    (hd : o.dbConnect = Except.error msg) :
    kagHandler ⟨"POST", Except.ok kb⟩ (some mu) o =
      (KagResult.err 500 "Internal Server Error" (some msg), [KagEv.connect]) := by
  simp [kagHandler, hq, queryFalsy, hq', hd]

theorem kagHandler_find_err (kb : KagBody) (q mu msg : String)
    (o : KagOracle) (hq : kb.query = some q) (hq' : q ≠ "")
    (hd : o.dbConnect = Except.ok ()) (hf : o.textFind = Except.error msg) :
    kagHandler ⟨"POST", Except.ok kb⟩ (some mu) o =
      (KagResult.err 500 "Internal Server Error" (some msg),
       [KagEv.connect, KagEv.find ⟨q, true, jsOrDefault kb.maxResults 3⟩]) := by
  simp [kagHandler, hq, queryFalsy, hq', hd, hf]

theorem kagHandler_find_ok_plain (kb : KagBody) (q mu : String)
    (o : KagOracle) (exs : List KagExample) (hq : kb.query = some q)
    (hq' : q ≠ "") (hd : o.dbConnect = Except.ok ())
    (hf : o.textFind = Except.ok exs) (hsp : kb.systemPrompt.getD "" = "") :
    kagHandler ⟨"POST", Except.ok kb⟩ (some mu) o =
      (KagResult.okPlain exs exs.length (formatKagExamples (some exs)),
       [KagEv.connect, KagEv.find ⟨q, true, jsOrDefault kb.maxResults 3⟩]) := by
  simp [kagHandler, hq, queryFalsy, hq', hd, hf, hsp]

theorem kagHandler_find_ok_augmented (kb : KagBody) (q mu : String)
    (o : KagOracle) (exs : List KagExample) (hq : kb.query = some q)
    (hq' : q ≠ "") (hd : o.dbConnect = Except.ok ())
    (hf : o.textFind = Except.ok exs) (hsp : kb.systemPrompt.getD "" ≠ "") :
    kagHandler ⟨"POST", Except.ok kb⟩ (some mu) o =
      (KagResult.okAugmented
        (augmentPromptWithKagExamples (kb.systemPrompt.getD "").data (some exs))
        exs exs.length,
       [KagEv.connect, KagEv.find ⟨q, true, jsOrDefault kb.maxResults 3⟩]) := by
  simp [kagHandler, hq, queryFalsy, hq', hd, hf, hsp]

theorem kagSearchHandler_connect_err (kb : KagBody) (q mu msg : String)
    (o : KagOracle) (hq : kb.query = some q) (hq' : q ≠ "")
    (hd : o.dbConnect = Except.error msg) :
    kagSearchHandler ⟨"POST", Except.ok kb⟩ (some mu) o =
      (KagResult.err 500 "Internal Server Error" (some msg), [KagEv.connect]) := by
  simp [kagSearchHandler, hq, queryFalsy, hq', hd]

theorem kagSearchHandler_find_err (kb : KagBody) (q mu msg : String)
    (o : KagOracle) (hq : kb.query = some q) (hq' : q ≠ "")
    (hd : o.dbConnect = Except.ok ()) (hf : o.textFind = Except.error msg) :
    kagSearchHandler ⟨"POST", Except.ok kb⟩ (some mu) o =
      (KagResult.err 500 "Internal Server Error" (some msg),
       [KagEv.connect, KagEv.find ⟨q, true, jsOrDefault kb.maxResults 3⟩]) := by
  simp [kagSearchHandler, hq, queryFalsy, hq', hd, hf]

theorem kagSearchHandler_find_ok (kb : KagBody) (q mu : String)
    (o : KagOracle) (exs : List KagExample) (hq : kb.query = some q)
    (hq' : q ≠ "") (hd : o.dbConnect = Except.ok ())
    (hf : o.textFind = Except.ok exs) :
    kagSearchHandler ⟨"POST", Except.ok kb⟩ (some mu) o =
      (KagResult.okList exs,
       [KagEv.connect, KagEv.find ⟨q, true, jsOrDefault kb.maxResults 3⟩]) := by
  simp [kagSearchHandler, hq, queryFalsy, hq', hd, hf]

/-- C6: retrieval is exactly one database query per request: the RAG
handler (once connected and with an embedding) issues a single
vector-KNN aggregate with `k = 5` on the `embedding` path projecting
instruction, context, response and the search score — and never more
than one search in any request — while the KAG handlers issue a single
text-score find sorted by `textScore` limited to `maxResults`
(defaulting to 3) and return the database's result list in order. -/
theorem retrieval_single_query
    (req : RagRequest) (env : RagEnv) (o : RagOracle)
    (b : RagBody) (q k u : String) (emb : List Int)
    (kreq : KagRequest) (kb : KagBody) (kq mu : String) (ko : KagOracle)
    (hm : req.method = "POST") (hk : env.fireworksApiKey = some k)
    (hu : env.mongoDbUri = some u) (hb : req.body = Except.ok b)
    (hq : b.query = some q) (hq' : q ≠ "")
    (hd : o.dbConnect = Except.ok ()) (he : o.embedding = Except.ok emb)
    (hkm : kreq.method = "POST") (hkb : kreq.body = Except.ok kb)
    (hkq : kb.query = some kq) (hkq' : kq ≠ "")
    (hkd : ko.dbConnect = Except.ok ()) :
    (ragHandler req env o).2.filter isSearchCall =
      [Ev.searchCall (ragVectorQuery emb)] ∧
    ragVectorQuery emb = ⟨"vector_index", "embedding", 5, emb,
      ["instruction", "context", "response", "score"]⟩ ∧
    (∀ req' env' o', countIf isSearchCall (ragHandler req' env' o').2 ≤ 1) ∧
    (kagHandler kreq (some mu) ko).2 =
      [KagEv.connect, KagEv.find ⟨kq, true, jsOrDefault kb.maxResults 3⟩] ∧
    (kagSearchHandler kreq (some mu) ko).2 =
      [KagEv.connect, KagEv.find ⟨kq, true, jsOrDefault kb.maxResults 3⟩] ∧
    jsOrDefault none 3 = 3 ∧
    (∀ exs, ko.textFind = Except.ok exs →
      (kagSearchHandler kreq (some mu) ko).1 = KagResult.okList exs ∧
      ((kb.systemPrompt.getD "" = "" ∧
         (kagHandler kreq (some mu) ko).1 =
           KagResult.okPlain exs exs.length (formatKagExamples (some exs))) ∨
       (kb.systemPrompt.getD "" ≠ "" ∧
         (kagHandler kreq (some mu) ko).1 =
           KagResult.okAugmented
             (augmentPromptWithKagExamples
               (kb.systemPrompt.getD "").data (some exs))
             exs exs.length))) := by
  obtain ⟨m, body⟩ := req
  obtain ⟨fk, mmu, mcol⟩ := env
  simp only at hm hk hu hb
  subst hm; subst hk; subst hu; subst hb
  obtain ⟨km, kbody⟩ := kreq
  simp only at hkm hkb
  subst hkm; subst hkb
  obtain ⟨dbc, embo, vso, llmo⟩ := o
  simp only at hd he
  subst hd; subst he
  obtain ⟨kdbc, kfind⟩ := ko
  simp only at hkd
  subst hkd
  refine ⟨?_, rfl, fun req' env' o' => (rag_no_retry req' env' o').2.2.1, ?_, ?_, rfl, ?_⟩
  · cases vso with
    | ok docs =>
      cases llmo with
      | ok ans =>
        rw [ragHandler_db_ok_search_ok_llm_ok b q k u mcol _ emb docs ans
          hq hq' rfl rfl rfl rfl]
        simp [isSearchCall]
      | error lm =>
        rw [ragHandler_db_ok_search_ok_llm_err b q k u mcol _ emb docs lm
          hq hq' rfl rfl rfl rfl]
        simp [isSearchCall]
    | error sm =>
      cases llmo with
      | ok ans =>
        rw [ragHandler_db_ok_search_err_llm_ok b q k u mcol _ emb sm ans
          hq hq' rfl rfl rfl rfl]
        simp [isSearchCall]
      | error lm =>
        rw [ragHandler_db_ok_search_err_llm_err b q k u mcol _ emb sm lm
          hq hq' rfl rfl rfl rfl]
        simp [isSearchCall]
  · cases kfind with
    | ok exs =>
      by_cases hsp : kb.systemPrompt.getD "" = ""
      · rw [kagHandler_find_ok_plain kb kq mu _ exs hkq hkq' rfl rfl hsp]
      · rw [kagHandler_find_ok_augmented kb kq mu _ exs hkq hkq' rfl rfl hsp]
    | error msg =>
      rw [kagHandler_find_err kb kq mu msg _ hkq hkq' rfl rfl]
  · cases kfind with
    | ok exs => rw [kagSearchHandler_find_ok kb kq mu _ exs hkq hkq' rfl rfl]
    | error msg => rw [kagSearchHandler_find_err kb kq mu msg _ hkq hkq' rfl rfl]
  · intro exs hf
    simp only at hf
    subst hf
    refine ⟨?_, ?_⟩
    · rw [kagSearchHandler_find_ok kb kq mu _ exs hkq hkq' rfl rfl]
    · by_cases hsp : kb.systemPrompt.getD "" = ""
      · exact Or.inl ⟨hsp,
          by rw [kagHandler_find_ok_plain kb kq mu _ exs hkq hkq' rfl rfl hsp]⟩
      · exact Or.inr ⟨hsp,
          by rw [kagHandler_find_ok_augmented kb kq mu _ exs hkq hkq' rfl rfl hsp]⟩

/-- Witness for C6: the KAG handler's trace at a concrete request is the
single text-score find with the default limit 3. -/
theorem retrieval_single_query_witness :
    (kagHandler ⟨"POST", Except.ok ⟨some "kq", none, none, none⟩⟩ (some "mu")
        ⟨Except.ok (), Except.ok []⟩).2 =
      [KagEv.connect, KagEv.find ⟨"kq", true, jsOrDefault none 3⟩] :=
  (retrieval_single_query
    ⟨"POST", Except.ok ⟨some "hi", none, none⟩⟩ ⟨some "k", some "u", none⟩
    ⟨Except.ok (), Except.ok [1], Except.ok [], Except.ok "ans"⟩
    ⟨some "hi", none, none⟩ "hi" "k" "u" [1]
    ⟨"POST", Except.ok ⟨some "kq", none, none, none⟩⟩
    ⟨some "kq", none, none, none⟩ "kq" "mu" ⟨Except.ok (), Except.ok []⟩
    rfl rfl rfl rfl rfl (by decide) rfl rfl
    rfl rfl rfl (by decide) rfl).2.2.2.1

theorem rag_single_respond (req : RagRequest) (env : RagEnv) (o : RagOracle) :
    (ragHandler req env o).2.filter isRespond =
      [Ev.respond (ragHandler req env o).1] := by
  obtain ⟨m, body⟩ := req
  obtain ⟨fk, mu, mcol⟩ := env
  rcases ragHandler_early ⟨m, body⟩ ⟨fk, mu, mcol⟩ o with ⟨r, hr⟩ |
    ⟨b, q, k, u, hm, hk, hu, hb, hq, hq'⟩
  · simp [hr, isRespond]
  · simp only at hm hk hu hb
    subst hm; subst hk; subst hu; subst hb
    obtain ⟨dbc, embo, vso, llmo⟩ := o
    cases embo with
    | error msg =>
      rw [ragHandler_embed_err b q k u mcol _ msg hq hq' rfl]
      simp [isRespond]
    | ok emb =>
      cases dbc with
      | error dm =>
        cases llmo with
        | ok ans =>
          rw [ragHandler_db_err_llm_ok b q k u mcol _ dm emb ans hq hq' rfl rfl rfl]
          simp [isRespond]
        | error lm =>
          rw [ragHandler_db_err_llm_err b q k u mcol _ dm emb lm hq hq' rfl rfl rfl]
          simp [isRespond]
      | ok uu =>
        cases uu
        cases vso with
        | ok docs =>
          cases llmo with
          | ok ans =>
            rw [ragHandler_db_ok_search_ok_llm_ok b q k u mcol _ emb docs ans
              hq hq' rfl rfl rfl rfl]
            simp [isRespond]
          | error lm =>
            rw [ragHandler_db_ok_search_ok_llm_err b q k u mcol _ emb docs lm
              hq hq' rfl rfl rfl rfl]
            simp [isRespond]
        | error sm =>
          cases llmo with
          | ok ans =>
            rw [ragHandler_db_ok_search_err_llm_ok b q k u mcol _ emb sm ans
              hq hq' rfl rfl rfl rfl]
            simp [isRespond]
          | error lm =>
            rw [ragHandler_db_ok_search_err_llm_err b q k u mcol _ emb sm lm
              hq hq' rfl rfl rfl rfl]
            simp [isRespond]

theorem kagHandler_bad_method (m : String) (kb : Except String KagBody)
    (mu : Option String) (o : KagOracle) (h1 : m ≠ "OPTIONS") (h2 : m ≠ "POST") :
    kagHandler ⟨m, kb⟩ mu o = (KagResult.err 405 "Method Not Allowed" none, []) := by
  simp [kagHandler, h1, h2]

theorem kagHandler_no_uri (kb : Except String KagBody) (o : KagOracle) :
    kagHandler ⟨"POST", kb⟩ none o =
      (KagResult.err 500 "Configuration error"
        (some "Database connection string not configured"), []) := by
  simp [kagHandler]

theorem kagHandler_bad_body (pm mu : String) (o : KagOracle) :
    kagHandler ⟨"POST", Except.error pm⟩ (some mu) o =
      (KagResult.err 400 "Invalid JSON in request body" (some pm), []) := by
  simp [kagHandler]

theorem kagHandler_missing_query (kb : KagBody) (mu : String) (o : KagOracle)
    (hq : queryFalsy kb.query = true) :
    kagHandler ⟨"POST", Except.ok kb⟩ (some mu) o =
      (KagResult.err 400 "Missing required parameter: query" none, []) := by
  simp [kagHandler, hq]

/-- C7 counterexample: a POST request with a valid body and query whose
embedding call fails is an error path, yet the RAG handler answers it
with HTTP status 200 — not one of the error status codes 400, 405, 500
the claim requires for every caught error. -/
theorem error_translation_cex :
    ragStatus (ragHandler ⟨"POST", Except.ok ⟨some "hi", none, none⟩⟩
        ⟨some "k", some "u", none⟩
        ⟨Except.ok (), Except.error "boom", Except.ok [], Except.ok "ans"⟩).1 = 200 ∧
    (200 ≠ 400 ∧ 200 ≠ 405 ∧ 200 ≠ 500) := by
  constructor
  · rw [ragHandler_embed_err ⟨some "hi", none, none⟩ "hi" "k" "u" none _ "boom"
      rfl (by decide) rfl]
    rfl
  · exact ⟨by decide, by decide, by decide⟩

/-- C7 amended: every handler catches its errors and always writes
exactly one response; invalid bodies map to 400, missing queries to
400, disallowed methods to 405, missing configuration to 500, and KAG
connect/find failures and RAG LLM failures to 500 — except that the RAG
handler answers embedding failures with status 200 (the fallback
response), and the streaming handler reports body-parse and upstream
errors as in-stream events with no error status code. -/
theorem error_translation_amended :
    (∀ req env o, (ragHandler req env o).2.filter isRespond =
      [Ev.respond (ragHandler req env o).1]) ∧
    (∀ m body env o, m ≠ "OPTIONS" → m ≠ "POST" →
      (ragHandler ⟨m, body⟩ env o).1 =
        RagResult.err 405 "Method Not Allowed" none) ∧
    (∀ pm k u mcol o,
      (ragHandler ⟨"POST", Except.error pm⟩ ⟨some k, some u, mcol⟩ o).1 =
        RagResult.err 400 "Invalid JSON in request body" (some pm)) ∧
    (∀ b k u mcol o, queryFalsy b.query = true →
      (ragHandler ⟨"POST", Except.ok b⟩ ⟨some k, some u, mcol⟩ o).1 =
        RagResult.err 400 "Missing query parameter" none) ∧
    (∀ body mu mcol o, (ragHandler ⟨"POST", body⟩ ⟨none, mu, mcol⟩ o).1 =
      RagResult.err 500 "Configuration error: Missing API keys or MongoDB URI" none) ∧
    (∀ b q k u mcol o emb lm, b.query = some q → q ≠ "" →
      o.embedding = Except.ok emb → o.llm = Except.error lm →
      ragStatus (ragHandler ⟨"POST", Except.ok b⟩ ⟨some k, some u, mcol⟩ o).1 = 500) ∧
    (∀ b q k u mcol o msg, b.query = some q → q ≠ "" →
      o.embedding = Except.error msg →
      ragStatus (ragHandler ⟨"POST", Except.ok b⟩ ⟨some k, some u, mcol⟩ o).1 = 200) ∧
    (∀ m kb mu o, m ≠ "OPTIONS" → m ≠ "POST" →
      (kagHandler ⟨m, kb⟩ mu o).1 = KagResult.err 405 "Method Not Allowed" none) ∧
    (∀ kb o, (kagHandler ⟨"POST", kb⟩ none o).1 =
      KagResult.err 500 "Configuration error"
        (some "Database connection string not configured")) ∧
    (∀ pm mu o, (kagHandler ⟨"POST", Except.error pm⟩ (some mu) o).1 =
      KagResult.err 400 "Invalid JSON in request body" (some pm)) ∧
    (∀ kb mu o, queryFalsy kb.query = true →
      (kagHandler ⟨"POST", Except.ok kb⟩ (some mu) o).1 =
        KagResult.err 400 "Missing required parameter: query" none) ∧
    (∀ kb q mu msg o, kb.query = some q → q ≠ "" →
      (o.dbConnect = Except.error msg ∨
        (o.dbConnect = Except.ok () ∧ o.textFind = Except.error msg)) →
      kagStatus (kagHandler ⟨"POST", Except.ok kb⟩ (some mu) o).1 = 500) ∧
    (∀ m body key o, m ≠ "OPTIONS" → m ≠ "POST" →
      streamingHandler ⟨m, body⟩ key o =
        StreamResult.status 405 (some "Method not allowed")) ∧
    (∀ body o, streamingHandler ⟨"POST", Except.ok body⟩ none o =
      StreamResult.status 500 (some "API key not configured on server")) ∧
    (∀ pm key o, streamingHandler ⟨"POST", Except.error pm⟩ key o =
      StreamResult.streamed ["data: " ++ jsonErrorEvent pm ++ "\n\n"] true) ∧
    (∀ body k errText ev,
      streamingHandler ⟨"POST", Except.ok body⟩ (some k) ⟨Except.error errText, ev⟩ =
        StreamResult.streamed ["data: " ++ jsonErrorEvent errText ++ "\n\n"] true) := by
  refine ⟨rag_single_respond, ?_, ?_, ?_, ?_, ?_, ?_, ?_, ?_, ?_, ?_, ?_, ?_, ?_, ?_, ?_⟩
  · intro m body env o h1 h2
    rw [ragHandler_bad_method m body env o h1 h2]
  · intro pm k u mcol o
    rw [ragHandler_bad_body pm k u mcol o]
  · intro b k u mcol o hq
    rw [ragHandler_missing_query b k u mcol o hq]
  · intro body mu mcol o
    rw [ragHandler_missing_key body mu mcol o]
  · intro b q k u mcol o emb lm hq hq' he hl
    obtain ⟨dbc, embo, vso, llmo⟩ := o
    simp only at he hl
    subst he; subst hl
    cases dbc with
    | error dm =>
      rw [ragHandler_db_err_llm_err b q k u mcol _ dm emb lm hq hq' rfl rfl rfl]
      rfl
    | ok uu =>
      cases uu
      cases vso with
      | ok docs =>
        rw [ragHandler_db_ok_search_ok_llm_err b q k u mcol _ emb docs lm
          hq hq' rfl rfl rfl rfl]
        rfl
      | error sm =>
        rw [ragHandler_db_ok_search_err_llm_err b q k u mcol _ emb sm lm
          hq hq' rfl rfl rfl rfl]
        rfl
  · intro b q k u mcol o msg hq hq' he
    rw [ragHandler_embed_err b q k u mcol o msg hq hq' he]
    rfl
  · intro m kb mu o h1 h2
    rw [kagHandler_bad_method m kb mu o h1 h2]
  · intro kb o
    rw [kagHandler_no_uri kb o]
  · intro pm mu o
    rw [kagHandler_bad_body pm mu o]
  · intro kb mu o hq
    rw [kagHandler_missing_query kb mu o hq]
  · intro kb q mu msg o hq hq' hcase
    rcases hcase with hd | ⟨hd, hf⟩
    · rw [kagHandler_connect_err kb q mu msg o hq hq' hd]
      rfl
    · rw [kagHandler_find_err kb q mu msg o hq hq' hd hf]
      rfl
  · intro m body key o h1 h2
    simp [streamingHandler, h1, h2]
  · intro body o
    simp [streamingHandler]
  · intro pm key o
    simp [streamingHandler]
  · intro body k errText ev
    simp [streamingHandler]

/-- Witness for C7's amended claim: a concrete disallowed-method request
to the RAG endpoint receives a 405 error response. -/
theorem error_translation_amended_witness :
    (ragHandler ⟨"GET", Except.ok ⟨some "hi", none, none⟩⟩
        ⟨some "k", some "u", none⟩
        ⟨Except.ok (), Except.ok [1], Except.ok [], Except.ok "ans"⟩).1 =
      RagResult.err 405 "Method Not Allowed" none :=
  error_translation_amended.2.1 "GET" (Except.ok ⟨some "hi", none, none⟩)
    ⟨some "k", some "u", none⟩
    ⟨Except.ok (), Except.ok [1], Except.ok [], Except.ok "ans"⟩
    (by decide) (by decide)
